import Mathlib

/-!
Verification of the mcp-infoblox repository: a shallow embedding of the
Infoblox WAPI MCP server (entry point, HTTP client, and the five tool
groups) together with theorems settling the specification claims.

JavaScript values flowing through the handlers (JSON bodies, query
parameters, fetch responses) are modelled by the `Value` type; JavaScript
string coercion, JSON.stringify, base64 and environment-variable
truthiness are embedded as executable Lean functions.
-/

/-- JSON-style values, modelling the `unknown` data passed between the
tool handlers and the HTTP client. Numbers are modelled as integers
(the handlers never do arithmetic on them). -/
inductive Value where
  | null
  | bool (b : Bool)
  | num (n : Int)
  | str (s : String)
  | arr (items : List Value)
  | obj (fields : List (String × Value))

/-- Hex digit, for JSON string escapes. -/
def hexDigit (n : Nat) : Char := "0123456789abcdef".data.getD n '0'

/-- Two-digit hex rendering of a byte. -/
def hex2 (n : Nat) : String := String.mk [hexDigit (n / 16), hexDigit (n % 16)]

/-- JSON escape of a single character, as JSON.stringify performs it. -/
def escChar (c : Char) : String :=
  if c = '"' then "\\\""
  else if c = '\\' then "\\\\"
  else if c = '\n' then "\\n"
  else if c = '\r' then "\\r"
  else if c = '\t' then "\\t"
  else if c = '\x08' then "\\b"
  else if c = '\x0c' then "\\f"
  else if c.toNat < 32 then "\\u00" ++ hex2 c.toNat
  else String.singleton c

/-- JSON escape of a string body. -/
def jsonEscape (s : String) : String := String.join (s.data.map escChar)

/-- A JSON-quoted string. -/
def jsonQuote (s : String) : String := "\"" ++ jsonEscape s ++ "\""

mutual

/-- Compact JSON serialization, modelling `JSON.stringify(v)` as used for
request bodies. -/
def jsonStringifyC : Value → String
  | .null => "null"
  | .bool b => cond b "true" "false"
  | .num n => toString n
  | .str s => jsonQuote s
  | .arr items => "[" ++ String.intercalate "," (jsonStringifyCList items) ++ "]"
  | .obj fields =>
      "\x7b" ++ String.intercalate "," (jsonStringifyCFields fields) ++ "\x7d"

def jsonStringifyCList : List Value → List String
  | [] => []
  | v :: vs => jsonStringifyC v :: jsonStringifyCList vs

def jsonStringifyCFields : List (String × Value) → List String
  | [] => []
  | (k, v) :: fs => (jsonQuote k ++ ":" ++ jsonStringifyC v) :: jsonStringifyCFields fs

end

/-- A run of spaces, for indented JSON output. -/
def spaces (n : Nat) : String := String.mk (List.replicate n ' ')

mutual

/-- Pretty JSON serialization at a given indent, modelling
`JSON.stringify(v, null, 2)` as used for tool results. -/
def jsonStringify2At : Nat → Value → String
  | _, .null => "null"
  | _, .bool b => cond b "true" "false"
  | _, .num n => toString n
  | _, .str s => jsonQuote s
  | _, .arr [] => "[]"
  | ind, .arr (v :: vs) =>
      "[\n" ++ String.intercalate ",\n" (jsonStringify2List (ind + 2) (v :: vs)) ++
        "\n" ++ spaces ind ++ "]"
  | _, .obj [] => "\x7b\x7d"
  | ind, .obj (f :: fs) =>
      "\x7b\n" ++ String.intercalate ",\n" (jsonStringify2Fields (ind + 2) (f :: fs)) ++
        "\n" ++ spaces ind ++ "\x7d"

def jsonStringify2List : Nat → List Value → List String
  | _, [] => []
  | ind, v :: vs =>
      (spaces ind ++ jsonStringify2At ind v) :: jsonStringify2List ind vs

def jsonStringify2Fields : Nat → List (String × Value) → List String
  | _, [] => []
  | ind, (k, v) :: fs =>
      (spaces ind ++ jsonQuote k ++ ": " ++ jsonStringify2At ind v) ::
        jsonStringify2Fields ind fs

end

/-- `JSON.stringify(v, null, 2)`. -/
def jsonStringify2 (v : Value) : String := jsonStringify2At 0 v

mutual

/-- JavaScript string coercion `String(v)` / template interpolation of a
value: strings pass through, arrays join with commas, objects render as
"[object Object]". -/
def jsToString : Value → String
  | .null => "null"
  | .bool b => cond b "true" "false"
  | .num n => toString n
  | .str s => s
  | .arr items => String.intercalate "," (jsToStringList items)
  | .obj _ => "[object Object]"

def jsToStringList : List Value → List String
  | [] => []
  | v :: vs => jsToString v :: jsToStringList vs

end

/-- Template interpolation of a caught `Error` object: the client throws
`new Error(msg)`, whose string form is "Error: " followed by the message. -/
def jsErrorToString (msg : String) : String := "Error: " ++ msg

/-- UTF-8 bytes of a character. -/
def charUtf8 (c : Char) : List Nat :=
  let n := c.toNat
  if n < 128 then [n]
  else if n < 2048 then [192 + n / 64, 128 + n % 64]
  else if n < 65536 then [224 + n / 4096, 128 + (n / 64) % 64, 128 + n % 64]
  else [240 + n / 262144, 128 + (n / 4096) % 64, 128 + (n / 64) % 64, 128 + n % 64]

/-- UTF-8 bytes of a string, as `Buffer.from(s)` produces. -/
def utf8Bytes (s : String) : List Nat := (s.data.map charUtf8).flatten

/-- The base64 alphabet. -/
def base64Table : List Char :=
  "ABCDEFGHIJKLMNOPQRSTUVWXYZabcdefghijklmnopqrstuvwxyz0123456789+/".data

/-- Base64 digit for a 6-bit value. -/
def b64c (n : Nat) : Char := base64Table.getD n '='

/-- Base64 encoding of a byte list. -/
def base64Bytes : List Nat → String
  | [] => ""
  | [a] => String.mk [b64c (a / 4), b64c (a % 4 * 16), '=', '=']
  | [a, b] => String.mk [b64c (a / 4), b64c (a % 4 * 16 + b / 16), b64c (b % 16 * 4), '=']
  | a :: b :: c :: rest =>
      String.mk [b64c (a / 4), b64c (a % 4 * 16 + b / 16),
        b64c (b % 16 * 4 + c / 64), b64c (c % 64)] ++ base64Bytes rest

/-- `Buffer.from(s).toString("base64")`. -/
def base64Encode (s : String) : String := base64Bytes (utf8Bytes s)

/-- The process environment: a map from variable names to their values
(`none` models an unset variable). -/
def Env : Type := String → Option String

/-- Update one variable of the process environment (assignment to
`process.env.X`). -/
def envSet (env : Env) (key value : String) : Env :=
  fun k => if k = key then some value else env k

/-- JavaScript truthiness of `process.env.X` (a string or undefined):
falsy exactly when unset or the empty string. -/
def envTruthy : Option String → Bool
  | none => false
  | some s => !(s = "")

/-- JavaScript `a || b` on a string-or-undefined left operand. -/
def orDefault (o : Option String) (d : String) : String :=
  match o with
  | some s => if s = "" then d else s
  | none => d

/-! ## The HTTP client (src/infoblox-client.ts) -/

/-- The configuration interface `InfobloxConfig`. -/
structure InfobloxConfig where
  host : String
  username : String
  password : String
  wapiVersion : String
  allowSelfSigned : Bool

/-- HTTP methods used by the client. -/
inductive Method where
  | GET
  | POST
  | PUT
  | DELETE
deriving DecidableEq, Repr

/-- An outgoing HTTP request as handed to `fetch`: method, the URL built
from the base-URL template and the path, the query parameters set on the
URL, the headers, and the serialized body if any. -/
structure HttpRequest where
  method : Method
  url : String
  query : List (String × String)
  headers : List (String × String)
  body : Option String
deriving DecidableEq, Repr

/-- An HTTP response as seen through `fetch`: the status code, the
content-type header (none when absent), the body text, and the value the
body parses to when read as JSON. -/
structure HttpResponse where
  status : Nat
  contentType : Option String
  text : String
  json : Value

/-- `URLSearchParams.set`: replace the value under a key when present,
otherwise append the pair. -/
def setParam (ps : List (String × String)) (k v : String) : List (String × String) :=
  if ps.any (fun p => p.1 = k) then
    ps.map (fun p => if p.1 = k then (k, v) else p)
  else
    ps ++ [(k, v)]

/-- `response.ok`: status in the range 200-299. -/
def respOk (r : HttpResponse) : Bool := 200 ≤ r.status && r.status ≤ 299

/-- Whether a character list occurs as a contiguous sublist of another,
modelling `String.prototype.includes`. -/
def hasSubstr (needle : List Char) : List Char → Bool
  | [] => needle.isEmpty
  | c :: rest => needle.isPrefixOf (c :: rest) || hasSubstr needle rest

/-- `contentType?.includes("application/json")`, with the optional
chaining treating an absent header as false. -/
def ctIsJson : Option String → Bool
  | none => false
  | some ct => hasSubstr "application/json".data ct.data

namespace InfobloxClient

/-- The `baseUrl` field computed by the constructor:
`https://<host>/wapi/v<version>`. -/
def baseUrl (cfg : InfobloxConfig) : String :=
  "https://" ++ cfg.host ++ "/wapi/v" ++ cfg.wapiVersion

/-- The `authHeader` field computed by the constructor:
`Basic <base64(username:password)>`. -/
def authHeader (cfg : InfobloxConfig) : String :=
  "Basic " ++ base64Encode (cfg.username ++ ":" ++ cfg.password)

/-- The side effect of the constructor on the process environment: when
`allowSelfSigned` is set it assigns `NODE_TLS_REJECT_UNAUTHORIZED = "0"`
on the process-wide environment. -/
def constructorEnv (cfg : InfobloxConfig) (env : Env) : Env :=
  if cfg.allowSelfSigned then envSet env "NODE_TLS_REJECT_UNAUTHORIZED" "0" else env

/-- The request-building half of `InfobloxClient.request`: the URL is the
base URL joined to the path, the query parameters are set one by one on
the fresh URL, the two headers are always attached, and a body is
serialized only for POST and PUT when one is given. -/
def request (cfg : InfobloxConfig) (method : Method) (path : String)
    (body : Option Value) (params : Option (List (String × String))) : HttpRequest :=
  { method := method
    url := baseUrl cfg ++ "/" ++ path
    query := (params.getD []).foldl (fun acc kv => setParam acc kv.1 kv.2) []
    headers := [("Authorization", authHeader cfg), ("Content-Type", "application/json")]
    body :=
      match body, method with
      | some v, .POST => some (jsonStringifyC v)
      | some v, .PUT => some (jsonStringifyC v)
      | _, _ => none }

/-- The response-handling half of `InfobloxClient.request`: a non-ok
status throws `Infoblox API error (<status>): <body text>`; an ok
response yields the parsed JSON body when the content type is JSON and
the body text otherwise. -/
def handleResponse (r : HttpResponse) : Except String Value :=
  if respOk r then
    if ctIsJson r.contentType then .ok r.json else .ok (.str r.text)
  else
    .error ("Infoblox API error (" ++ toString r.status ++ "): " ++ r.text)

/-- `InfobloxClient.get`. -/
def get (cfg : InfobloxConfig) (objectType : String)
    (params : Option (List (String × String))) : HttpRequest :=
  request cfg .GET objectType none params

/-- `InfobloxClient.getByRef`. -/
def getByRef (cfg : InfobloxConfig) (ref : String)
    (params : Option (List (String × String))) : HttpRequest :=
  request cfg .GET ref none params

/-- `InfobloxClient.create`. -/
def create (cfg : InfobloxConfig) (objectType : String)
    (data : List (String × Value)) : HttpRequest :=
  request cfg .POST objectType (some (.obj data)) none

/-- `InfobloxClient.update`. -/
def update (cfg : InfobloxConfig) (ref : String)
    (data : List (String × Value)) : HttpRequest :=
  request cfg .PUT ref (some (.obj data)) none

/-- `InfobloxClient.delete`. -/
def delete (cfg : InfobloxConfig) (ref : String) : HttpRequest :=
  request cfg .DELETE ref none none

/-- `InfobloxClient.callFunction`: POST to the reference with the
`_function` query parameter set to the function name. -/
def callFunction (cfg : InfobloxConfig) (ref : String) (functionName : String)
    (data : Option Value) : HttpRequest :=
  request cfg .POST ref data (some [("_function", functionName)])

end InfobloxClient

/-- One invocation of a public client method, identified by the method
and its arguments. -/
inductive ClientCall where
  | get (objectType : String) (params : List (String × String))
  | getByRef (ref : String) (params : List (String × String))
  | create (objectType : String) (data : List (String × Value))
  | update (ref : String) (data : List (String × Value))
  | delete (ref : String)
  | callFunction (ref : String) (functionName : String) (data : Option Value)

/-- The single HTTP request a client call issues, a pure function of the
constructor configuration and the call's arguments. -/
def toRequest (cfg : InfobloxConfig) : ClientCall → HttpRequest
  | .get t ps => InfobloxClient.get cfg t (some ps)
  | .getByRef r ps => InfobloxClient.getByRef cfg r (some ps)
  | .create t d => InfobloxClient.create cfg t d
  | .update r d => InfobloxClient.update cfg r d
  | .delete r => InfobloxClient.delete cfg r
  | .callFunction r fn d => InfobloxClient.callFunction cfg r fn d

/-- Execution of one client call against a network: issue the one
request, handle the response. -/
def execCall (cfg : InfobloxConfig) (net : HttpRequest → HttpResponse)
    (c : ClientCall) : HttpRequest × Except String Value :=
  let req := toRequest cfg c
  (req, InfobloxClient.handleResponse (net req))

/-- Execution of a sequence of client calls. The client object carries
only the two constructor-computed fields and no mutable state, so the
calls are independent. -/
def runCalls (cfg : InfobloxConfig) (calls : List ClientCall)
    (net : HttpRequest → HttpResponse) : List (HttpRequest × Except String Value) :=
  calls.map (execCall cfg net)

/-! ## Tool results and handler computations (src/tools/(star).ts) -/

/-- One content item of a tool result; every handler produces text
content only. -/
structure TextContent where
  type : String
  text : String
deriving DecidableEq, Repr

/-- The value a tool handler returns to the protocol server. -/
structure ToolResult where
  content : List TextContent
  isError : Bool
deriving DecidableEq, Repr

/-- The `toolResult` helper shared by all tool files. -/
def toolResult (text : String) (isError : Bool := false) : ToolResult :=
  { content := [{ type := "text", text := text }], isError := isError }

/-- A tool-handler computation: either a finished result, or a single
client call together with the continuation on its outcome. Every handler
in the repository is one `call` node whose continuation returns. -/
inductive ToolM (α : Type) where
  | pure (a : α)
  | call (c : ClientCall) (k : Except String Value → ToolM α)

/-- Run a handler computation against an oracle answering client calls. -/
def ToolM.run {α : Type} : ToolM α → (ClientCall → Except String Value) → α
  | .pure a, _ => a
  | .call c k, oracle => ToolM.run (k (oracle c)) oracle

/-- Number of client calls (hence fetches) a handler computation
performs against an oracle. -/
def ToolM.numCalls {α : Type} : ToolM α → (ClientCall → Except String Value) → Nat
  | .pure _, _ => 0
  | .call c k, oracle => 1 + ToolM.numCalls (k (oracle c)) oracle

/-- The try/catch body shared by every handler: a successful client call
produces a success text from the response, a thrown error produces the
fixed context text followed by the interpolated error, flagged as an
error result. -/
def respond (sText : Value → String) (errPre : String) :
    Except String Value → ToolResult
  | .ok v => toolResult (sText v)
  | .error e => toolResult (errPre ++ jsErrorToString e) true

/-- The `try { const results = await client.get(...); return
toolResult(JSON.stringify(results, null, 2)) } catch` pattern shared by
all search/list tools. -/
def getJsonTool (objectType : String) (params : List (String × String))
    (errPre : String) : ToolM ToolResult :=
  .call (.get objectType params) fun r =>
    .pure (respond jsonStringify2 errPre r)

/-- The `client.getByRef` + JSON.stringify pattern. -/
def getByRefJsonTool (ref : String) (params : List (String × String))
    (errPre : String) : ToolM ToolResult :=
  .call (.getByRef ref params) fun r =>
    .pure (respond jsonStringify2 errPre r)

/-- The `client.callFunction` + JSON.stringify pattern. -/
def callFnJsonTool (ref : String) (functionName : String) (data : Option Value)
    (errPre : String) : ToolM ToolResult :=
  .call (.callFunction ref functionName data) fun r =>
    .pure (respond jsonStringify2 errPre r)

/-- The `const ref = await client.create(...); return toolResult(
"<ok text>\nReference: " + ref)` pattern shared by all create tools. -/
def createRefTool (objectType : String) (data : List (String × Value))
    (okPre errPre : String) : ToolM ToolResult :=
  .call (.create objectType data) fun r =>
    .pure (respond (fun v => okPre ++ jsToString v) errPre r)

/-- The `client.update` + reference-message pattern. -/
def updateRefTool (ref : String) (data : List (String × Value))
    (okPre errPre : String) : ToolM ToolResult :=
  .call (.update ref data) fun r =>
    .pure (respond (fun v => okPre ++ jsToString v) errPre r)

/-- The `client.delete` + reference-message pattern shared by all delete
tools. -/
def deleteRefTool (ref : String) (okPre errPre : String) : ToolM ToolResult :=
  .call (.delete ref) fun r =>
    .pure (respond (fun v => okPre ++ jsToString v) errPre r)

/-- Append a query parameter only when the optional argument is truthy,
modelling `if (x) params.k = x` on an optional string argument. -/
def addIfTruthy (ps : List (String × String)) (k : String) :
    Option String → List (String × String)
  | some s => if s = "" then ps else ps ++ [(k, s)]
  | none => ps

/-- Append a body field only when the optional argument is truthy,
modelling `if (x) data.k = x` on an optional string argument. -/
def addIfTruthyV (d : List (String × Value)) (k : String) :
    Option String → List (String × Value)
  | some s => if s = "" then d else d ++ [(k, .str s)]
  | none => d

/-- Append a body field when an optional structured argument (object or
array, always truthy in JavaScript when present) is given. -/
def addIfSomeV (d : List (String × Value)) (k : String) :
    Option Value → List (String × Value)
  | some v => d ++ [(k, v)]
  | none => d

/-- Model of `if (ttl !== undefined) { data.ttl = ttl; data.use_ttl =
true }`: a defined ttl (even 0) is included along with use_ttl. -/
def addTtl (d : List (String × Value)) : Option Int → List (String × Value)
  | some n => d ++ [("ttl", .num n), ("use_ttl", .bool true)]
  | none => d

/-- Normalization of a falsy optional-string argument: the empty string
is indistinguishable from an absent argument for truthiness guards. -/
def blankFalsy : Option String → Option String
  | some s => if s = "" then none else some s
  | none => none

/-- A registered tool: its name, the type of its schema-validated
arguments, the handler, the falsy-argument normalization used to state
claim C10, and the accessor for the max_results argument when the tool
is a search tool. -/
structure Tool : Type 1 where
  name : String
  Args : Type
  handler : Args → ToolM ToolResult
  normalize : Args → Args
  maxResults : Option (Args → Int)

/-! ## DNS tools (src/tools/dns.ts) -/

/-- The `RECORD_TYPES` enumeration of searchable DNS record types. -/
inductive RecordType where
  | a
  | aaaa
  | cname
  | host
  | ptr
  | mx
  | txt
  | srv
deriving DecidableEq, Repr

/-- The WAPI object-type string of a record type. -/
def recordTypeStr : RecordType → String
  | .a => "record:a"
  | .aaaa => "record:aaaa"
  | .cname => "record:cname"
  | .host => "record:host"
  | .ptr => "record:ptr"
  | .mx => "record:mx"
  | .txt => "record:txt"
  | .srv => "record:srv"

/-- The `DEFAULT_RETURN_FIELDS` table keyed by record type. -/
def DEFAULT_RETURN_FIELDS : List (String × String) :=
  [("record:a", "name,ipv4addr,view,ttl,comment,zone,disable"),
   ("record:aaaa", "name,ipv6addr,view,ttl,comment,zone,disable"),
   ("record:cname", "name,canonical,view,ttl,comment,zone,disable"),
   ("record:host",
    "name,ipv4addrs,ipv6addrs,view,ttl,comment,zone,aliases,configure_for_dns,disable"),
   ("record:ptr", "ptrdname,ipv4addr,ipv6addr,view,ttl,comment,zone,disable"),
   ("record:mx", "name,mail_exchanger,preference,view,ttl,comment,zone,disable"),
   ("record:txt", "name,text,view,ttl,comment,zone,disable"),
   ("record:srv", "name,target,port,priority,weight,view,ttl,comment,zone,disable")]

/-- Validated arguments of `search_dns_records`. -/
structure SearchDnsRecordsArgs where
  record_type : RecordType
  name : Option String
  zone : Option String
  view : Option String
  ip_address : Option String
  max_results : Int
  return_fields : Option String

/-- The ip_address branch of the search_dns_records parameter builder:
A and Host records search by ipv4addr, AAAA by ipv6addr, other types
ignore the argument. -/
def search_dns_records_ip (ps : List (String × String)) (rt : RecordType) :
    Option String → List (String × String)
  | some s =>
      if s = "" then ps
      else if rt = .a ∨ rt = .host then ps ++ [("ipv4addr", s)]
      else if rt = .aaaa then ps ++ [("ipv6addr", s)]
      else ps
  | none => ps

/-- Query parameters built by the `search_dns_records` handler. -/
def search_dns_records_params (a : SearchDnsRecordsArgs) : List (String × String) :=
  let ps := [("_max_results", toString a.max_results),
             ("_return_fields",
              orDefault a.return_fields
                (orDefault (DEFAULT_RETURN_FIELDS.lookup (recordTypeStr a.record_type)) ""))]
  let ps := addIfTruthy ps "name~" a.name
  let ps := addIfTruthy ps "zone" a.zone
  let ps := addIfTruthy ps "view" a.view
  search_dns_records_ip ps a.record_type a.ip_address

/-- The `search_dns_records` handler. -/
def search_dns_records_handle (a : SearchDnsRecordsArgs) : ToolM ToolResult :=
  getJsonTool (recordTypeStr a.record_type) (search_dns_records_params a)
    "Error searching records: "

/-- Falsy-argument normalization for `search_dns_records`. -/
def search_dns_records_normalize (a : SearchDnsRecordsArgs) : SearchDnsRecordsArgs :=
  { a with name := blankFalsy a.name, zone := blankFalsy a.zone,
           view := blankFalsy a.view, ip_address := blankFalsy a.ip_address,
           return_fields := blankFalsy a.return_fields }

/-- The zod default of max_results in the `search_dns_records` schema. -/
def search_dns_records_mr_default (o : Option Int) : Int := o.getD 100

/-- The `search_dns_records` tool. -/
def tool_search_dns_records : Tool :=
  { name := "search_dns_records"
    Args := SearchDnsRecordsArgs
    handler := search_dns_records_handle
    normalize := search_dns_records_normalize
    maxResults := some (fun a => a.max_results) }

/-- Validated arguments of `get_all_records_in_zone`. -/
structure GetAllRecordsInZoneArgs where
  zone : String
  view : Option String
  record_type : Option String
  max_results : Int

/-- Query parameters built by the `get_all_records_in_zone` handler. -/
def get_all_records_in_zone_params (a : GetAllRecordsInZoneArgs) :
    List (String × String) :=
  let ps := [("zone", a.zone),
             ("_max_results", toString a.max_results),
             ("_return_fields", "name,type,address,comment,zone,view")]
  let ps := addIfTruthy ps "view" a.view
  addIfTruthy ps "type" a.record_type

/-- The `get_all_records_in_zone` handler. -/
def get_all_records_in_zone_handle (a : GetAllRecordsInZoneArgs) : ToolM ToolResult :=
  getJsonTool "allrecords" (get_all_records_in_zone_params a)
    "Error fetching zone records: "

/-- Falsy-argument normalization for `get_all_records_in_zone`. -/
def get_all_records_in_zone_normalize (a : GetAllRecordsInZoneArgs) :
    GetAllRecordsInZoneArgs :=
  { a with view := blankFalsy a.view, record_type := blankFalsy a.record_type }

/-- The zod default of max_results in the `get_all_records_in_zone`
schema. -/
def get_all_records_in_zone_mr_default (o : Option Int) : Int := o.getD 500

/-- The `get_all_records_in_zone` tool. -/
def tool_get_all_records_in_zone : Tool :=
  { name := "get_all_records_in_zone"
    Args := GetAllRecordsInZoneArgs
    handler := get_all_records_in_zone_handle
    normalize := get_all_records_in_zone_normalize
    maxResults := some (fun a => a.max_results) }

/-- Validated arguments of `create_a_record`. -/
structure CreateARecordArgs where
  name : String
  ipv4addr : String
  view : Option String
  ttl : Option Int
  comment : Option String
  disable : Bool

/-- Request body built by the `create_a_record` handler. -/
def create_a_record_data (a : CreateARecordArgs) : List (String × Value) :=
  let d := [("name", Value.str a.name), ("ipv4addr", Value.str a.ipv4addr)]
  let d := addIfTruthyV d "view" a.view
  let d := addTtl d a.ttl
  let d := addIfTruthyV d "comment" a.comment
  if a.disable then d ++ [("disable", .bool a.disable)] else d

/-- The `create_a_record` handler. -/
def create_a_record_handle (a : CreateARecordArgs) : ToolM ToolResult :=
  createRefTool "record:a" (create_a_record_data a)
    "A record created successfully.\nReference: " "Error creating A record: "

/-- Falsy-argument normalization for `create_a_record`. -/
def create_a_record_normalize (a : CreateARecordArgs) : CreateARecordArgs :=
  { a with view := blankFalsy a.view, comment := blankFalsy a.comment }

/-- The `create_a_record` tool. -/
def tool_create_a_record : Tool :=
  { name := "create_a_record"
    Args := CreateARecordArgs
    handler := create_a_record_handle
    normalize := create_a_record_normalize
    maxResults := none }

/-- Validated arguments of `create_aaaa_record`. -/
structure CreateAaaaRecordArgs where
  name : String
  ipv6addr : String
  view : Option String
  ttl : Option Int
  comment : Option String

/-- Request body built by the `create_aaaa_record` handler. -/
def create_aaaa_record_data (a : CreateAaaaRecordArgs) : List (String × Value) :=
  let d := [("name", Value.str a.name), ("ipv6addr", Value.str a.ipv6addr)]
  let d := addIfTruthyV d "view" a.view
  let d := addTtl d a.ttl
  addIfTruthyV d "comment" a.comment

/-- The `create_aaaa_record` handler. -/
def create_aaaa_record_handle (a : CreateAaaaRecordArgs) : ToolM ToolResult :=
  createRefTool "record:aaaa" (create_aaaa_record_data a)
    "AAAA record created successfully.\nReference: " "Error creating AAAA record: "

/-- Falsy-argument normalization for `create_aaaa_record`. -/
def create_aaaa_record_normalize (a : CreateAaaaRecordArgs) : CreateAaaaRecordArgs :=
  { a with view := blankFalsy a.view, comment := blankFalsy a.comment }

/-- The `create_aaaa_record` tool. -/
def tool_create_aaaa_record : Tool :=
  { name := "create_aaaa_record"
    Args := CreateAaaaRecordArgs
    handler := create_aaaa_record_handle
    normalize := create_aaaa_record_normalize
    maxResults := none }

/-- Validated arguments of `create_cname_record`. -/
structure CreateCnameRecordArgs where
  name : String
  canonical : String
  view : Option String
  ttl : Option Int
  comment : Option String

/-- Request body built by the `create_cname_record` handler. -/
def create_cname_record_data (a : CreateCnameRecordArgs) : List (String × Value) :=
  let d := [("name", Value.str a.name), ("canonical", Value.str a.canonical)]
  let d := addIfTruthyV d "view" a.view
  let d := addTtl d a.ttl
  addIfTruthyV d "comment" a.comment

/-- The `create_cname_record` handler. -/
def create_cname_record_handle (a : CreateCnameRecordArgs) : ToolM ToolResult :=
  createRefTool "record:cname" (create_cname_record_data a)
    "CNAME record created successfully.\nReference: " "Error creating CNAME record: "

/-- Falsy-argument normalization for `create_cname_record`. -/
def create_cname_record_normalize (a : CreateCnameRecordArgs) : CreateCnameRecordArgs :=
  { a with view := blankFalsy a.view, comment := blankFalsy a.comment }

/-- The `create_cname_record` tool. -/
def tool_create_cname_record : Tool :=
  { name := "create_cname_record"
    Args := CreateCnameRecordArgs
    handler := create_cname_record_handle
    normalize := create_cname_record_normalize
    maxResults := none }

/-- One entry of the ipv4addrs array of `create_host_record`. -/
structure HostIpv4 where
  ipv4addr : String
  mac : Option String
  configure_for_dhcp : Option Bool
deriving DecidableEq, Repr

/-- JSON value of a validated ipv4addrs entry: zod keeps only the
declared keys, and JSON.stringify drops the undefined optional ones. -/
def HostIpv4.toValue (h : HostIpv4) : Value :=
  .obj ([("ipv4addr", Value.str h.ipv4addr)] ++
    (match h.mac with | some m => [("mac", Value.str m)] | none => []) ++
    (match h.configure_for_dhcp with
     | some b => [("configure_for_dhcp", Value.bool b)]
     | none => []))

/-- One entry of the ipv6addrs array of `create_host_record`. -/
structure HostIpv6 where
  ipv6addr : String
deriving DecidableEq, Repr

/-- JSON value of a validated ipv6addrs entry. -/
def HostIpv6.toValue (h : HostIpv6) : Value :=
  .obj [("ipv6addr", Value.str h.ipv6addr)]

/-- Validated arguments of `create_host_record`. -/
structure CreateHostRecordArgs where
  name : String
  ipv4addrs : Option (List HostIpv4)
  ipv6addrs : Option (List HostIpv6)
  view : Option String
  ttl : Option Int
  comment : Option String
  configure_for_dns : Bool

/-- Request body built by the `create_host_record` handler. An array
argument is truthy in JavaScript whenever present (even empty), and
configure_for_dns carries a zod default so its `!== undefined` guard is
always taken. -/
def create_host_record_data (a : CreateHostRecordArgs) : List (String × Value) :=
  let d := [("name", Value.str a.name)]
  let d := addIfSomeV d "ipv4addrs" ((a.ipv4addrs).map (fun l => .arr (l.map HostIpv4.toValue)))
  let d := addIfSomeV d "ipv6addrs" ((a.ipv6addrs).map (fun l => .arr (l.map HostIpv6.toValue)))
  let d := addIfTruthyV d "view" a.view
  let d := addTtl d a.ttl
  let d := addIfTruthyV d "comment" a.comment
  d ++ [("configure_for_dns", .bool a.configure_for_dns)]

/-- The `create_host_record` handler. -/
def create_host_record_handle (a : CreateHostRecordArgs) : ToolM ToolResult :=
  createRefTool "record:host" (create_host_record_data a)
    "Host record created successfully.\nReference: " "Error creating host record: "

/-- Falsy-argument normalization for `create_host_record`. -/
def create_host_record_normalize (a : CreateHostRecordArgs) : CreateHostRecordArgs :=
  { a with view := blankFalsy a.view, comment := blankFalsy a.comment }

/-- The `create_host_record` tool. -/
def tool_create_host_record : Tool :=
  { name := "create_host_record"
    Args := CreateHostRecordArgs
    handler := create_host_record_handle
    normalize := create_host_record_normalize
    maxResults := none }

/-- Validated arguments of `create_ptr_record`. -/
structure CreatePtrRecordArgs where
  ptrdname : String
  ipv4addr : Option String
  ipv6addr : Option String
  name : Option String
  view : Option String
  ttl : Option Int
  comment : Option String

/-- Request body built by the `create_ptr_record` handler. -/
def create_ptr_record_data (a : CreatePtrRecordArgs) : List (String × Value) :=
  let d := [("ptrdname", Value.str a.ptrdname)]
  let d := addIfTruthyV d "ipv4addr" a.ipv4addr
  let d := addIfTruthyV d "ipv6addr" a.ipv6addr
  let d := addIfTruthyV d "name" a.name
  let d := addIfTruthyV d "view" a.view
  let d := addTtl d a.ttl
  addIfTruthyV d "comment" a.comment

/-- The `create_ptr_record` handler. -/
def create_ptr_record_handle (a : CreatePtrRecordArgs) : ToolM ToolResult :=
  createRefTool "record:ptr" (create_ptr_record_data a)
    "PTR record created successfully.\nReference: " "Error creating PTR record: "

/-- Falsy-argument normalization for `create_ptr_record`. -/
def create_ptr_record_normalize (a : CreatePtrRecordArgs) : CreatePtrRecordArgs :=
  { a with ipv4addr := blankFalsy a.ipv4addr, ipv6addr := blankFalsy a.ipv6addr,
           name := blankFalsy a.name, view := blankFalsy a.view,
           comment := blankFalsy a.comment }

/-- The `create_ptr_record` tool. -/
def tool_create_ptr_record : Tool :=
  { name := "create_ptr_record"
    Args := CreatePtrRecordArgs
    handler := create_ptr_record_handle
    normalize := create_ptr_record_normalize
    maxResults := none }

/-- Validated arguments of `create_mx_record`. -/
structure CreateMxRecordArgs where
  name : String
  mail_exchanger : String
  preference : Int
  view : Option String
  ttl : Option Int
  comment : Option String

/-- Request body built by the `create_mx_record` handler. -/
def create_mx_record_data (a : CreateMxRecordArgs) : List (String × Value) :=
  let d := [("name", Value.str a.name),
            ("mail_exchanger", Value.str a.mail_exchanger),
            ("preference", Value.num a.preference)]
  let d := addIfTruthyV d "view" a.view
  let d := addTtl d a.ttl
  addIfTruthyV d "comment" a.comment

/-- The `create_mx_record` handler. -/
def create_mx_record_handle (a : CreateMxRecordArgs) : ToolM ToolResult :=
  createRefTool "record:mx" (create_mx_record_data a)
    "MX record created successfully.\nReference: " "Error creating MX record: "

/-- Falsy-argument normalization for `create_mx_record`. -/
def create_mx_record_normalize (a : CreateMxRecordArgs) : CreateMxRecordArgs :=
  { a with view := blankFalsy a.view, comment := blankFalsy a.comment }

/-- The `create_mx_record` tool. -/
def tool_create_mx_record : Tool :=
  { name := "create_mx_record"
    Args := CreateMxRecordArgs
    handler := create_mx_record_handle
    normalize := create_mx_record_normalize
    maxResults := none }

/-- Validated arguments of `create_txt_record`. -/
structure CreateTxtRecordArgs where
  name : String
  text : String
  view : Option String
  ttl : Option Int
  comment : Option String

/-- Request body built by the `create_txt_record` handler. -/
def create_txt_record_data (a : CreateTxtRecordArgs) : List (String × Value) :=
  let d := [("name", Value.str a.name), ("text", Value.str a.text)]
  let d := addIfTruthyV d "view" a.view
  let d := addTtl d a.ttl
  addIfTruthyV d "comment" a.comment

/-- The `create_txt_record` handler. -/
def create_txt_record_handle (a : CreateTxtRecordArgs) : ToolM ToolResult :=
  createRefTool "record:txt" (create_txt_record_data a)
    "TXT record created successfully.\nReference: " "Error creating TXT record: "

/-- Falsy-argument normalization for `create_txt_record`. -/
def create_txt_record_normalize (a : CreateTxtRecordArgs) : CreateTxtRecordArgs :=
  { a with view := blankFalsy a.view, comment := blankFalsy a.comment }

/-- The `create_txt_record` tool. -/
def tool_create_txt_record : Tool :=
  { name := "create_txt_record"
    Args := CreateTxtRecordArgs
    handler := create_txt_record_handle
    normalize := create_txt_record_normalize
    maxResults := none }

/-- Validated arguments of `create_srv_record`. -/
structure CreateSrvRecordArgs where
  name : String
  target : String
  port : Int
  priority : Int
  weight : Int
  view : Option String
  ttl : Option Int
  comment : Option String

/-- Request body built by the `create_srv_record` handler. -/
def create_srv_record_data (a : CreateSrvRecordArgs) : List (String × Value) :=
  let d := [("name", Value.str a.name),
            ("target", Value.str a.target),
            ("port", Value.num a.port),
            ("priority", Value.num a.priority),
            ("weight", Value.num a.weight)]
  let d := addIfTruthyV d "view" a.view
  let d := addTtl d a.ttl
  addIfTruthyV d "comment" a.comment

/-- The `create_srv_record` handler. -/
def create_srv_record_handle (a : CreateSrvRecordArgs) : ToolM ToolResult :=
  createRefTool "record:srv" (create_srv_record_data a)
    "SRV record created successfully.\nReference: " "Error creating SRV record: "

/-- Falsy-argument normalization for `create_srv_record`. -/
def create_srv_record_normalize (a : CreateSrvRecordArgs) : CreateSrvRecordArgs :=
  { a with view := blankFalsy a.view, comment := blankFalsy a.comment }

/-- The `create_srv_record` tool. -/
def tool_create_srv_record : Tool :=
  { name := "create_srv_record"
    Args := CreateSrvRecordArgs
    handler := create_srv_record_handle
    normalize := create_srv_record_normalize
    maxResults := none }

/-- Validated arguments of `update_dns_record`. -/
structure UpdateDnsRecordArgs where
  ref : String
  fields : List (String × Value)

/-- The `update_dns_record` handler. -/
def update_dns_record_handle (a : UpdateDnsRecordArgs) : ToolM ToolResult :=
  updateRefTool a.ref a.fields
    "Record updated successfully.\nReference: " "Error updating record: "

/-- The `update_dns_record` tool. -/
def tool_update_dns_record : Tool :=
  { name := "update_dns_record"
    Args := UpdateDnsRecordArgs
    handler := update_dns_record_handle
    normalize := id
    maxResults := none }

/-- Validated arguments of `delete_dns_record`. -/
structure DeleteDnsRecordArgs where
  ref : String

/-- The `delete_dns_record` handler. -/
def delete_dns_record_handle (a : DeleteDnsRecordArgs) : ToolM ToolResult :=
  deleteRefTool a.ref
    "Record deleted successfully.\nReference: " "Error deleting record: "

/-- The `delete_dns_record` tool. -/
def tool_delete_dns_record : Tool :=
  { name := "delete_dns_record"
    Args := DeleteDnsRecordArgs
    handler := delete_dns_record_handle
    normalize := id
    maxResults := none }

/-- The DNS tool group registered by `registerDnsTools`. -/
def dnsTools : List Tool :=
  [tool_search_dns_records, tool_get_all_records_in_zone, tool_create_a_record,
   tool_create_aaaa_record, tool_create_cname_record, tool_create_host_record,
   tool_create_ptr_record, tool_create_mx_record, tool_create_txt_record,
   tool_create_srv_record, tool_update_dns_record, tool_delete_dns_record]

/-! ## Network tools (src/tools/network.ts) -/

/-- A `dhcpmember` structure argument, with the `_struct` literal default
from the schema. -/
structure DhcpMember where
  name : String
deriving DecidableEq, Repr

/-- JSON value of a validated dhcpmember, keys in schema order. -/
def DhcpMember.toValue (m : DhcpMember) : Value :=
  .obj [("_struct", Value.str "dhcpmember"), ("name", Value.str m.name)]

/-- A DHCP option argument, with the zod defaults for use_option and
vendor_class applied by validation. -/
structure DhcpOption where
  name : String
  num : Int
  use_option : Bool
  value : String
  vendor_class : String
deriving DecidableEq, Repr

/-- JSON value of a validated DHCP option. -/
def DhcpOption.toValue (o : DhcpOption) : Value :=
  .obj [("name", Value.str o.name), ("num", Value.num o.num),
        ("use_option", Value.bool o.use_option), ("value", Value.str o.value),
        ("vendor_class", Value.str o.vendor_class)]

/-- Validated arguments of `get_networks`. -/
structure GetNetworksArgs where
  network : Option String
  network_view : Option String
  comment : Option String
  max_results : Int
  return_fields : Option String

/-- Query parameters built by the `get_networks` handler. -/
def get_networks_params (a : GetNetworksArgs) : List (String × String) :=
  let ps := [("_max_results", toString a.max_results),
             ("_return_fields",
              orDefault a.return_fields
                "network,comment,network_view,members,options,extattrs,utilization")]
  let ps := addIfTruthy ps "network~" a.network
  let ps := addIfTruthy ps "network_view" a.network_view
  addIfTruthy ps "comment~" a.comment

/-- The `get_networks` handler. -/
def get_networks_handle (a : GetNetworksArgs) : ToolM ToolResult :=
  getJsonTool "network" (get_networks_params a) "Error fetching networks: "

/-- Falsy-argument normalization for `get_networks`. -/
def get_networks_normalize (a : GetNetworksArgs) : GetNetworksArgs :=
  { a with network := blankFalsy a.network, network_view := blankFalsy a.network_view,
           comment := blankFalsy a.comment, return_fields := blankFalsy a.return_fields }

/-- The zod default of max_results in the `get_networks` schema. -/
def get_networks_mr_default (o : Option Int) : Int := o.getD 100

/-- The `get_networks` tool. -/
def tool_get_networks : Tool :=
  { name := "get_networks"
    Args := GetNetworksArgs
    handler := get_networks_handle
    normalize := get_networks_normalize
    maxResults := some (fun a => a.max_results) }

/-- Validated arguments of `create_network`. -/
structure CreateNetworkArgs where
  network : String
  network_view : Option String
  comment : Option String
  members : Option (List DhcpMember)
  options : Option (List DhcpOption)

/-- Request body built by the `create_network` handler. -/
def create_network_data (a : CreateNetworkArgs) : List (String × Value) :=
  let d := [("network", Value.str a.network)]
  let d := addIfTruthyV d "network_view" a.network_view
  let d := addIfTruthyV d "comment" a.comment
  let d := addIfSomeV d "members" ((a.members).map (fun l => .arr (l.map DhcpMember.toValue)))
  addIfSomeV d "options" ((a.options).map (fun l => .arr (l.map DhcpOption.toValue)))

/-- The `create_network` handler. -/
def create_network_handle (a : CreateNetworkArgs) : ToolM ToolResult :=
  createRefTool "network" (create_network_data a)
    "Network created successfully.\nReference: " "Error creating network: "

/-- Falsy-argument normalization for `create_network`. -/
def create_network_normalize (a : CreateNetworkArgs) : CreateNetworkArgs :=
  { a with network_view := blankFalsy a.network_view, comment := blankFalsy a.comment }

/-- The `create_network` tool. -/
def tool_create_network : Tool :=
  { name := "create_network"
    Args := CreateNetworkArgs
    handler := create_network_handle
    normalize := create_network_normalize
    maxResults := none }

/-- Validated arguments of `delete_network`. -/
structure DeleteNetworkArgs where
  ref : String

/-- The `delete_network` handler. -/
def delete_network_handle (a : DeleteNetworkArgs) : ToolM ToolResult :=
  deleteRefTool a.ref
    "Network deleted successfully.\nReference: " "Error deleting network: "

/-- The `delete_network` tool. -/
def tool_delete_network : Tool :=
  { name := "delete_network"
    Args := DeleteNetworkArgs
    handler := delete_network_handle
    normalize := id
    maxResults := none }

/-- Validated arguments of `get_next_available_ip`. -/
structure GetNextAvailableIpArgs where
  network_ref : String
  num : Int
  exclude : Option (List String)

/-- Function-call body built by the `get_next_available_ip` handler (an
array argument is truthy whenever present). -/
def get_next_available_ip_data (a : GetNextAvailableIpArgs) : List (String × Value) :=
  let d := [("num", Value.num a.num)]
  addIfSomeV d "exclude" ((a.exclude).map (fun l => .arr (l.map Value.str)))

/-- The `get_next_available_ip` handler. -/
def get_next_available_ip_handle (a : GetNextAvailableIpArgs) : ToolM ToolResult :=
  callFnJsonTool a.network_ref "next_available_ip"
    (some (.obj (get_next_available_ip_data a))) "Error getting next available IP: "

/-- The `get_next_available_ip` tool. -/
def tool_get_next_available_ip : Tool :=
  { name := "get_next_available_ip"
    Args := GetNextAvailableIpArgs
    handler := get_next_available_ip_handle
    normalize := id
    maxResults := none }

/-- The address-status filter enumeration of `search_ip_addresses`. -/
inductive IpStatus where
  | USED
  | UNUSED
deriving DecidableEq, Repr

/-- The string carried by a status filter value. -/
def ipStatusStr : IpStatus → String
  | .USED => "USED"
  | .UNUSED => "UNUSED"

/-- Validated arguments of `search_ip_addresses`. -/
structure SearchIpAddressesArgs where
  ip_address : Option String
  network : Option String
  status : Option IpStatus
  network_view : Option String
  max_results : Int

/-- Query parameters built by the `search_ip_addresses` handler (an enum
value, when present, is a non-empty string and hence truthy). -/
def search_ip_addresses_params (a : SearchIpAddressesArgs) : List (String × String) :=
  let ps := [("_max_results", toString a.max_results),
             ("_return_fields",
              "ip_address,status,names,types,objects,mac_address,network,network_view,usage")]
  let ps := addIfTruthy ps "ip_address" a.ip_address
  let ps := addIfTruthy ps "network" a.network
  let ps := match a.status with
    | some st => ps ++ [("status", ipStatusStr st)]
    | none => ps
  addIfTruthy ps "network_view" a.network_view

/-- The `search_ip_addresses` handler. -/
def search_ip_addresses_handle (a : SearchIpAddressesArgs) : ToolM ToolResult :=
  getJsonTool "ipv4address" (search_ip_addresses_params a)
    "Error searching IP addresses: "

/-- Falsy-argument normalization for `search_ip_addresses`. -/
def search_ip_addresses_normalize (a : SearchIpAddressesArgs) : SearchIpAddressesArgs :=
  { a with ip_address := blankFalsy a.ip_address, network := blankFalsy a.network,
           network_view := blankFalsy a.network_view }

/-- The zod default of max_results in the `search_ip_addresses` schema. -/
def search_ip_addresses_mr_default (o : Option Int) : Int := o.getD 100

/-- The `search_ip_addresses` tool. -/
def tool_search_ip_addresses : Tool :=
  { name := "search_ip_addresses"
    Args := SearchIpAddressesArgs
    handler := search_ip_addresses_handle
    normalize := search_ip_addresses_normalize
    maxResults := some (fun a => a.max_results) }

/-- Validated arguments of `get_network_details`. -/
structure GetNetworkDetailsArgs where
  ref : String
  return_fields : Option String

/-- Query parameters built by the `get_network_details` handler. -/
def get_network_details_params (a : GetNetworkDetailsArgs) : List (String × String) :=
  [("_return_fields",
    orDefault a.return_fields
      "network,comment,network_view,members,options,extattrs,dhcp_utilization,dynamic_hosts,static_hosts,total_hosts,utilization")]

/-- The `get_network_details` handler. -/
def get_network_details_handle (a : GetNetworkDetailsArgs) : ToolM ToolResult :=
  getByRefJsonTool a.ref (get_network_details_params a)
    "Error fetching network details: "

/-- Falsy-argument normalization for `get_network_details`. -/
def get_network_details_normalize (a : GetNetworkDetailsArgs) : GetNetworkDetailsArgs :=
  { a with return_fields := blankFalsy a.return_fields }

/-- The `get_network_details` tool. -/
def tool_get_network_details : Tool :=
  { name := "get_network_details"
    Args := GetNetworkDetailsArgs
    handler := get_network_details_handle
    normalize := get_network_details_normalize
    maxResults := none }

/-- The network tool group registered by `registerNetworkTools`. -/
def networkTools : List Tool :=
  [tool_get_networks, tool_create_network, tool_delete_network,
   tool_get_next_available_ip, tool_search_ip_addresses, tool_get_network_details]

/-! ## DHCP tools (src/tools/dhcp.ts) -/

/-- Validated arguments of `get_fixed_addresses`. -/
structure GetFixedAddressesArgs where
  ipv4addr : Option String
  mac : Option String
  network : Option String
  network_view : Option String
  comment : Option String
  max_results : Int

/-- Query parameters built by the `get_fixed_addresses` handler. -/
def get_fixed_addresses_params (a : GetFixedAddressesArgs) : List (String × String) :=
  let ps := [("_max_results", toString a.max_results),
             ("_return_fields",
              "ipv4addr,mac,name,comment,network,network_view,match_client,disable,options")]
  let ps := addIfTruthy ps "ipv4addr" a.ipv4addr
  let ps := addIfTruthy ps "mac" a.mac
  let ps := addIfTruthy ps "network" a.network
  let ps := addIfTruthy ps "network_view" a.network_view
  addIfTruthy ps "comment~" a.comment

/-- The `get_fixed_addresses` handler. -/
def get_fixed_addresses_handle (a : GetFixedAddressesArgs) : ToolM ToolResult :=
  getJsonTool "fixedaddress" (get_fixed_addresses_params a)
    "Error fetching fixed addresses: "

/-- Falsy-argument normalization for `get_fixed_addresses`. -/
def get_fixed_addresses_normalize (a : GetFixedAddressesArgs) : GetFixedAddressesArgs :=
  { a with ipv4addr := blankFalsy a.ipv4addr, mac := blankFalsy a.mac,
           network := blankFalsy a.network, network_view := blankFalsy a.network_view,
           comment := blankFalsy a.comment }

/-- The zod default of max_results in the `get_fixed_addresses` schema. -/
def get_fixed_addresses_mr_default (o : Option Int) : Int := o.getD 100

/-- The `get_fixed_addresses` tool. -/
def tool_get_fixed_addresses : Tool :=
  { name := "get_fixed_addresses"
    Args := GetFixedAddressesArgs
    handler := get_fixed_addresses_handle
    normalize := get_fixed_addresses_normalize
    maxResults := some (fun a => a.max_results) }

/-- The client-matching enumeration of `create_fixed_address`. -/
inductive MatchClient where
  | MAC_ADDRESS
  | CLIENT_ID
  | CIRCUIT_ID
  | REMOTE_ID
deriving DecidableEq, Repr

/-- The string carried by a match_client value. -/
def matchClientStr : MatchClient → String
  | .MAC_ADDRESS => "MAC_ADDRESS"
  | .CLIENT_ID => "CLIENT_ID"
  | .CIRCUIT_ID => "CIRCUIT_ID"
  | .REMOTE_ID => "REMOTE_ID"

/-- Validated arguments of `create_fixed_address`. -/
structure CreateFixedAddressArgs where
  ipv4addr : String
  mac : String
  name : Option String
  comment : Option String
  network_view : Option String
  match_client : MatchClient
  options : Option (List DhcpOption)

/-- Request body built by the `create_fixed_address` handler. The
match_client argument carries a zod default, so its truthiness guard is
always taken (enum strings are non-empty). -/
def create_fixed_address_data (a : CreateFixedAddressArgs) : List (String × Value) :=
  let d := [("ipv4addr", Value.str a.ipv4addr), ("mac", Value.str a.mac)]
  let d := addIfTruthyV d "name" a.name
  let d := addIfTruthyV d "comment" a.comment
  let d := addIfTruthyV d "network_view" a.network_view
  let d := d ++ [("match_client", Value.str (matchClientStr a.match_client))]
  addIfSomeV d "options" ((a.options).map (fun l => .arr (l.map DhcpOption.toValue)))

/-- The `create_fixed_address` handler. -/
def create_fixed_address_handle (a : CreateFixedAddressArgs) : ToolM ToolResult :=
  createRefTool "fixedaddress" (create_fixed_address_data a)
    "Fixed address created successfully.\nReference: " "Error creating fixed address: "

/-- Falsy-argument normalization for `create_fixed_address`. -/
def create_fixed_address_normalize (a : CreateFixedAddressArgs) : CreateFixedAddressArgs :=
  { a with name := blankFalsy a.name, comment := blankFalsy a.comment,
           network_view := blankFalsy a.network_view }

/-- The `create_fixed_address` tool. -/
def tool_create_fixed_address : Tool :=
  { name := "create_fixed_address"
    Args := CreateFixedAddressArgs
    handler := create_fixed_address_handle
    normalize := create_fixed_address_normalize
    maxResults := none }

/-- Validated arguments of `delete_fixed_address`. -/
structure DeleteFixedAddressArgs where
  ref : String

/-- The `delete_fixed_address` handler. -/
def delete_fixed_address_handle (a : DeleteFixedAddressArgs) : ToolM ToolResult :=
  deleteRefTool a.ref
    "Fixed address deleted successfully.\nReference: " "Error deleting fixed address: "

/-- The `delete_fixed_address` tool. -/
def tool_delete_fixed_address : Tool :=
  { name := "delete_fixed_address"
    Args := DeleteFixedAddressArgs
    handler := delete_fixed_address_handle
    normalize := id
    maxResults := none }

/-- Validated arguments of `get_dhcp_leases`. -/
structure GetDhcpLeasesArgs where
  address : Option String
  network : Option String
  hardware : Option String
  max_results : Int

/-- Query parameters built by the `get_dhcp_leases` handler. -/
def get_dhcp_leases_params (a : GetDhcpLeasesArgs) : List (String × String) :=
  let ps := [("_max_results", toString a.max_results),
             ("_return_fields",
              "address,hardware,client_hostname,starts,ends,binding_state,network,network_view")]
  let ps := addIfTruthy ps "address" a.address
  let ps := addIfTruthy ps "network" a.network
  addIfTruthy ps "hardware" a.hardware

/-- The `get_dhcp_leases` handler. -/
def get_dhcp_leases_handle (a : GetDhcpLeasesArgs) : ToolM ToolResult :=
  getJsonTool "lease" (get_dhcp_leases_params a) "Error fetching leases: "

/-- Falsy-argument normalization for `get_dhcp_leases`. -/
def get_dhcp_leases_normalize (a : GetDhcpLeasesArgs) : GetDhcpLeasesArgs :=
  { a with address := blankFalsy a.address, network := blankFalsy a.network,
           hardware := blankFalsy a.hardware }

/-- The zod default of max_results in the `get_dhcp_leases` schema. -/
def get_dhcp_leases_mr_default (o : Option Int) : Int := o.getD 100

/-- The `get_dhcp_leases` tool. -/
def tool_get_dhcp_leases : Tool :=
  { name := "get_dhcp_leases"
    Args := GetDhcpLeasesArgs
    handler := get_dhcp_leases_handle
    normalize := get_dhcp_leases_normalize
    maxResults := some (fun a => a.max_results) }

/-- Validated arguments of `get_dhcp_ranges`. -/
structure GetDhcpRangesArgs where
  network : Option String
  network_view : Option String
  max_results : Int

/-- Query parameters built by the `get_dhcp_ranges` handler. -/
def get_dhcp_ranges_params (a : GetDhcpRangesArgs) : List (String × String) :=
  let ps := [("_max_results", toString a.max_results),
             ("_return_fields",
              "start_addr,end_addr,network,network_view,comment,member,disable")]
  let ps := addIfTruthy ps "network" a.network
  addIfTruthy ps "network_view" a.network_view

/-- The `get_dhcp_ranges` handler. -/
def get_dhcp_ranges_handle (a : GetDhcpRangesArgs) : ToolM ToolResult :=
  getJsonTool "range" (get_dhcp_ranges_params a) "Error fetching DHCP ranges: "

/-- Falsy-argument normalization for `get_dhcp_ranges`. -/
def get_dhcp_ranges_normalize (a : GetDhcpRangesArgs) : GetDhcpRangesArgs :=
  { a with network := blankFalsy a.network, network_view := blankFalsy a.network_view }

/-- The zod default of max_results in the `get_dhcp_ranges` schema. -/
def get_dhcp_ranges_mr_default (o : Option Int) : Int := o.getD 100

/-- The `get_dhcp_ranges` tool. -/
def tool_get_dhcp_ranges : Tool :=
  { name := "get_dhcp_ranges"
    Args := GetDhcpRangesArgs
    handler := get_dhcp_ranges_handle
    normalize := get_dhcp_ranges_normalize
    maxResults := some (fun a => a.max_results) }

/-- Validated arguments of `create_dhcp_range`. -/
structure CreateDhcpRangeArgs where
  start_addr : String
  end_addr : String
  network : Option String
  network_view : Option String
  comment : Option String
  member : Option DhcpMember

/-- Request body built by the `create_dhcp_range` handler (an object
argument is truthy whenever present). -/
def create_dhcp_range_data (a : CreateDhcpRangeArgs) : List (String × Value) :=
  let d := [("start_addr", Value.str a.start_addr), ("end_addr", Value.str a.end_addr)]
  let d := addIfTruthyV d "network" a.network
  let d := addIfTruthyV d "network_view" a.network_view
  let d := addIfTruthyV d "comment" a.comment
  addIfSomeV d "member" ((a.member).map DhcpMember.toValue)

/-- The `create_dhcp_range` handler. -/
def create_dhcp_range_handle (a : CreateDhcpRangeArgs) : ToolM ToolResult :=
  createRefTool "range" (create_dhcp_range_data a)
    "DHCP range created successfully.\nReference: " "Error creating DHCP range: "

/-- Falsy-argument normalization for `create_dhcp_range`. -/
def create_dhcp_range_normalize (a : CreateDhcpRangeArgs) : CreateDhcpRangeArgs :=
  { a with network := blankFalsy a.network, network_view := blankFalsy a.network_view,
           comment := blankFalsy a.comment }

/-- The `create_dhcp_range` tool. -/
def tool_create_dhcp_range : Tool :=
  { name := "create_dhcp_range"
    Args := CreateDhcpRangeArgs
    handler := create_dhcp_range_handle
    normalize := create_dhcp_range_normalize
    maxResults := none }

/-- The DHCP tool group registered by `registerDhcpTools`. -/
def dhcpTools : List Tool :=
  [tool_get_fixed_addresses, tool_create_fixed_address, tool_delete_fixed_address,
   tool_get_dhcp_leases, tool_get_dhcp_ranges, tool_create_dhcp_range]

/-! ## Zone tools (src/tools/zone.ts) -/

/-- The zone-format enumeration. -/
inductive ZoneFormat where
  | FORWARD
  | IPv4
  | IPv6
deriving DecidableEq, Repr

/-- The string carried by a zone_format value. -/
def zoneFormatStr : ZoneFormat → String
  | .FORWARD => "FORWARD"
  | .IPv4 => "IPv4"
  | .IPv6 => "IPv6"

/-- Validated arguments of `get_zones`. -/
structure GetZonesArgs where
  fqdn : Option String
  view : Option String
  zone_format : Option ZoneFormat
  max_results : Int

/-- Query parameters built by the `get_zones` handler. -/
def get_zones_params (a : GetZonesArgs) : List (String × String) :=
  let ps := [("_max_results", toString a.max_results),
             ("_return_fields",
              "fqdn,view,zone_format,comment,disable,ns_group,soa_email,network_view")]
  let ps := addIfTruthy ps "fqdn~" a.fqdn
  let ps := addIfTruthy ps "view" a.view
  match a.zone_format with
  | some zf => ps ++ [("zone_format", zoneFormatStr zf)]
  | none => ps

/-- The `get_zones` handler. -/
def get_zones_handle (a : GetZonesArgs) : ToolM ToolResult :=
  getJsonTool "zone_auth" (get_zones_params a) "Error fetching zones: "

/-- Falsy-argument normalization for `get_zones`. -/
def get_zones_normalize (a : GetZonesArgs) : GetZonesArgs :=
  { a with fqdn := blankFalsy a.fqdn, view := blankFalsy a.view }

/-- The zod default of max_results in the `get_zones` schema. -/
def get_zones_mr_default (o : Option Int) : Int := o.getD 100

/-- The `get_zones` tool. -/
def tool_get_zones : Tool :=
  { name := "get_zones"
    Args := GetZonesArgs
    handler := get_zones_handle
    normalize := get_zones_normalize
    maxResults := some (fun a => a.max_results) }

/-- A `memberserver` structure argument, with the `_struct` literal
default from the schema (name first, in schema key order). -/
structure MemberServer where
  name : String
deriving DecidableEq, Repr

/-- JSON value of a validated memberserver. -/
def MemberServer.toValue (m : MemberServer) : Value :=
  .obj [("name", Value.str m.name), ("_struct", Value.str "memberserver")]

/-- Validated arguments of `create_zone`. -/
structure CreateZoneArgs where
  fqdn : String
  view : Option String
  zone_format : ZoneFormat
  comment : Option String
  grid_primary : Option (List MemberServer)
  grid_secondaries : Option (List MemberServer)
  ns_group : Option String

/-- Request body built by the `create_zone` handler. The zone_format
argument carries a zod default, so its truthiness guard is always taken
(enum strings are non-empty). -/
def create_zone_data (a : CreateZoneArgs) : List (String × Value) :=
  let d := [("fqdn", Value.str a.fqdn)]
  let d := addIfTruthyV d "view" a.view
  let d := d ++ [("zone_format", Value.str (zoneFormatStr a.zone_format))]
  let d := addIfTruthyV d "comment" a.comment
  let d := addIfSomeV d "grid_primary"
    ((a.grid_primary).map (fun l => .arr (l.map MemberServer.toValue)))
  let d := addIfSomeV d "grid_secondaries"
    ((a.grid_secondaries).map (fun l => .arr (l.map MemberServer.toValue)))
  addIfTruthyV d "ns_group" a.ns_group

/-- The `create_zone` handler. -/
def create_zone_handle (a : CreateZoneArgs) : ToolM ToolResult :=
  createRefTool "zone_auth" (create_zone_data a)
    "Zone created successfully.\nReference: " "Error creating zone: "

/-- Falsy-argument normalization for `create_zone`. -/
def create_zone_normalize (a : CreateZoneArgs) : CreateZoneArgs :=
  { a with view := blankFalsy a.view, comment := blankFalsy a.comment,
           ns_group := blankFalsy a.ns_group }

/-- The `create_zone` tool. -/
def tool_create_zone : Tool :=
  { name := "create_zone"
    Args := CreateZoneArgs
    handler := create_zone_handle
    normalize := create_zone_normalize
    maxResults := none }

/-- Validated arguments of `delete_zone`. -/
structure DeleteZoneArgs where
  ref : String

/-- The `delete_zone` handler. -/
def delete_zone_handle (a : DeleteZoneArgs) : ToolM ToolResult :=
  deleteRefTool a.ref
    "Zone deleted successfully.\nReference: " "Error deleting zone: "

/-- The `delete_zone` tool. -/
def tool_delete_zone : Tool :=
  { name := "delete_zone"
    Args := DeleteZoneArgs
    handler := delete_zone_handle
    normalize := id
    maxResults := none }

/-- The zone tool group registered by `registerZoneTools`. -/
def zoneTools : List Tool :=
  [tool_get_zones, tool_create_zone, tool_delete_zone]

/-! ## Grid tools (src/tools/grid.ts)

Modelled from the spec: the file src/tools/grid.ts is referenced by the
entry point but is not among the provided sources. The spec states that
the grid group holds eight tools (get_grid_info, get_members,
restart_services, get_object_by_ref, global_search, get_network_views,
get_dns_views, get_extensible_attribute_definitions), that every tool
handler validates a flat argument object, issues a single HTTP request
and serializes the raw response back out, and that no component has
error classification beyond returning the message as text. Each handler
below follows that uniform pattern. -/

/-- Modelled from the spec: arguments of `get_grid_info`, which fetches
grid configuration and status and takes no search arguments. -/
structure GetGridInfoArgs where
  dummy : Unit

/-- Modelled from the spec: the `get_grid_info` handler, one GET on the
grid object type. -/
def get_grid_info_handle (_ : GetGridInfoArgs) : ToolM ToolResult :=
  getJsonTool "grid" [] "Error fetching grid info: "

/-- Modelled from the spec: the `get_grid_info` tool. -/
def tool_get_grid_info : Tool :=
  { name := "get_grid_info"
    Args := GetGridInfoArgs
    handler := get_grid_info_handle
    normalize := id
    maxResults := none }

/-- Modelled from the spec: arguments of `get_members`. -/
structure GetMembersArgs where
  max_results : Int

/-- Modelled from the spec: the `get_members` handler, one GET listing
grid members. -/
def get_members_handle (a : GetMembersArgs) : ToolM ToolResult :=
  getJsonTool "member" [("_max_results", toString a.max_results)]
    "Error fetching members: "

/-- Modelled from the spec: the zod default of max_results in the
`get_members` schema. -/
def get_members_mr_default (o : Option Int) : Int := o.getD 100

/-- Modelled from the spec: the `get_members` tool. -/
def tool_get_members : Tool :=
  { name := "get_members"
    Args := GetMembersArgs
    handler := get_members_handle
    normalize := id
    maxResults := some (fun a => a.max_results) }

/-- Modelled from the spec: arguments of `restart_services`. -/
structure RestartServicesArgs where
  dummy : Unit

/-- Modelled from the spec: the `restart_services` handler, one
function-call request restarting DNS/DHCP services on the grid. -/
def restart_services_handle (_ : RestartServicesArgs) : ToolM ToolResult :=
  callFnJsonTool "grid" "restartservices" none "Error restarting services: "

/-- Modelled from the spec: the `restart_services` tool. -/
def tool_restart_services : Tool :=
  { name := "restart_services"
    Args := RestartServicesArgs
    handler := restart_services_handle
    normalize := id
    maxResults := none }

/-- Modelled from the spec: arguments of `get_object_by_ref`. -/
structure GetObjectByRefArgs where
  ref : String
  return_fields : Option String

/-- Modelled from the spec: query parameters of `get_object_by_ref`. -/
def get_object_by_ref_params (a : GetObjectByRefArgs) : List (String × String) :=
  addIfTruthy [] "_return_fields" a.return_fields

/-- Modelled from the spec: the `get_object_by_ref` handler, one GET of
an arbitrary object by its WAPI reference. -/
def get_object_by_ref_handle (a : GetObjectByRefArgs) : ToolM ToolResult :=
  getByRefJsonTool a.ref (get_object_by_ref_params a) "Error fetching object: "

/-- Modelled from the spec: falsy-argument normalization for
`get_object_by_ref`. -/
def get_object_by_ref_normalize (a : GetObjectByRefArgs) : GetObjectByRefArgs :=
  { a with return_fields := blankFalsy a.return_fields }

/-- Modelled from the spec: the `get_object_by_ref` tool. -/
def tool_get_object_by_ref : Tool :=
  { name := "get_object_by_ref"
    Args := GetObjectByRefArgs
    handler := get_object_by_ref_handle
    normalize := get_object_by_ref_normalize
    maxResults := none }

/-- Modelled from the spec: arguments of `global_search`. -/
structure GlobalSearchArgs where
  search_string : String
  max_results : Int

/-- Modelled from the spec: the `global_search` handler, one GET on the
search object type across all object types. -/
def global_search_handle (a : GlobalSearchArgs) : ToolM ToolResult :=
  getJsonTool "search"
    [("search_string~", a.search_string), ("_max_results", toString a.max_results)]
    "Error searching: "

/-- Modelled from the spec: the zod default of max_results in the
`global_search` schema. -/
def global_search_mr_default (o : Option Int) : Int := o.getD 100

/-- Modelled from the spec: the `global_search` tool. -/
def tool_global_search : Tool :=
  { name := "global_search"
    Args := GlobalSearchArgs
    handler := global_search_handle
    normalize := id
    maxResults := some (fun a => a.max_results) }

/-- Modelled from the spec: arguments of `get_network_views`. -/
structure GetNetworkViewsArgs where
  max_results : Int

/-- Modelled from the spec: the `get_network_views` handler. -/
def get_network_views_handle (a : GetNetworkViewsArgs) : ToolM ToolResult :=
  getJsonTool "networkview" [("_max_results", toString a.max_results)]
    "Error fetching network views: "

/-- Modelled from the spec: the zod default of max_results in the
`get_network_views` schema. -/
def get_network_views_mr_default (o : Option Int) : Int := o.getD 100

/-- Modelled from the spec: the `get_network_views` tool. -/
def tool_get_network_views : Tool :=
  { name := "get_network_views"
    Args := GetNetworkViewsArgs
    handler := get_network_views_handle
    normalize := id
    maxResults := some (fun a => a.max_results) }

/-- Modelled from the spec: arguments of `get_dns_views`. -/
structure GetDnsViewsArgs where
  max_results : Int

/-- Modelled from the spec: the `get_dns_views` handler. -/
def get_dns_views_handle (a : GetDnsViewsArgs) : ToolM ToolResult :=
  getJsonTool "view" [("_max_results", toString a.max_results)]
    "Error fetching DNS views: "

/-- Modelled from the spec: the zod default of max_results in the
`get_dns_views` schema. -/
def get_dns_views_mr_default (o : Option Int) : Int := o.getD 100

/-- Modelled from the spec: the `get_dns_views` tool. -/
def tool_get_dns_views : Tool :=
  { name := "get_dns_views"
    Args := GetDnsViewsArgs
    handler := get_dns_views_handle
    normalize := id
    maxResults := some (fun a => a.max_results) }

/-- Modelled from the spec: arguments of
`get_extensible_attribute_definitions`. -/
structure GetExtensibleAttributeDefinitionsArgs where
  max_results : Int

/-- Modelled from the spec: the `get_extensible_attribute_definitions`
handler. -/
def get_extensible_attribute_definitions_handle
    (a : GetExtensibleAttributeDefinitionsArgs) : ToolM ToolResult :=
  getJsonTool "extensibleattributedef" [("_max_results", toString a.max_results)]
    "Error fetching extensible attribute definitions: "

/-- Modelled from the spec: the zod default of max_results in the
`get_extensible_attribute_definitions` schema. -/
def get_extensible_attribute_definitions_mr_default (o : Option Int) : Int :=
  o.getD 100

/-- Modelled from the spec: the `get_extensible_attribute_definitions`
tool. -/
def tool_get_extensible_attribute_definitions : Tool :=
  { name := "get_extensible_attribute_definitions"
    Args := GetExtensibleAttributeDefinitionsArgs
    handler := get_extensible_attribute_definitions_handle
    normalize := id
    maxResults := some (fun a => a.max_results) }

/-- Modelled from the spec: the grid tool group registered by
`registerGridTools`. -/
def gridTools : List Tool :=
  [tool_get_grid_info, tool_get_members, tool_restart_services,
   tool_get_object_by_ref, tool_global_search, tool_get_network_views,
   tool_get_dns_views, tool_get_extensible_attribute_definitions]

/-! ## Entry point (src/index.ts) -/

/-- `getConfig`: reads the connection settings from the process
environment; a missing or empty required variable prints an error and
exits with code 1, modelled as an error value carrying the message and
the exit code. -/
def getConfig (env : Env) : Except (String × Nat) InfobloxConfig :=
  let host := env "INFOBLOX_HOST"
  let username := env "INFOBLOX_USERNAME"
  let password := env "INFOBLOX_PASSWORD"
  if !envTruthy host || !envTruthy username || !envTruthy password then
    .error ("Missing required environment variables: INFOBLOX_HOST, INFOBLOX_USERNAME, INFOBLOX_PASSWORD", 1)
  else
    .ok { host := host.getD ""
          username := username.getD ""
          password := password.getD ""
          wapiVersion := orDefault (env "INFOBLOX_WAPI_VERSION") "2.12"
          allowSelfSigned := decide (env "INFOBLOX_ALLOW_SELF_SIGNED" ≠ some "false") }

/-- One step taken by `main` after a successful `getConfig`. -/
inductive MainAction where
  | mkClient
  | register (group : String)
  | connect (transport : String)
deriving DecidableEq, Repr

/-- The sequence of steps `main` performs: construct one client from the
configuration, register the five tool groups, attach the stdio
transport. -/
def mainActions : List MainAction :=
  [.mkClient, .register "dns", .register "network", .register "dhcp",
   .register "zone", .register "grid", .connect "stdio"]

/-- All tools registered against the server, in registration order. -/
def tools : List Tool :=
  dnsTools ++ networkTools ++ dhcpTools ++ zoneTools ++ gridTools

/-! ## Helper predicates and lemmas -/

/-- Client calls whose tools serialize the raw response with
JSON.stringify (searches, reference fetches and function calls); the
remaining calls (create/update/delete) return the response reference in
a fixed message. -/
def stringifySuccess : ClientCall → Bool
  | .get _ _ => true
  | .getByRef _ _ => true
  | .callFunction _ _ _ => true
  | .create _ _ => false
  | .update _ _ => false
  | .delete _ => false

/-- The uniform handler discipline every registered tool follows: a
fixed error-context text, and for each argument object a single client
call whose continuation immediately returns `respond` of the outcome,
with the success text determined by the kind of call. -/
def UniformTool (t : Tool) : Prop :=
  ∃ errPre : String, ∀ a : t.Args, ∃ c : ClientCall, ∃ sText : Value → String,
    t.handler a = ToolM.call c (fun r => .pure (respond sText errPre r)) ∧
    ((stringifySuccess c = true ∧ ∀ v, sText v = jsonStringify2 v) ∨
     (stringifySuccess c = false ∧ ∃ okPre, ∀ v, sText v = okPre ++ jsToString v))

/-- A falsy optional argument is indistinguishable from an absent one. -/
def NormalizeInvariant (t : Tool) : Prop :=
  ∀ a : t.Args, t.handler (t.normalize a) = t.handler a

/-- A search tool issues a single GET whose `_max_results` query
parameter is the string form of its max_results argument. -/
def SearchSendsMax (t : Tool) : Prop :=
  ∀ f, t.maxResults = some f → ∀ a : t.Args,
    ∃ ot ps k, t.handler a = ToolM.call (ClientCall.get ot ps) k ∧
      List.lookup "_max_results" ps = some (toString (f a))

lemma run_call_pure (c : ClientCall) (f : Except String Value → ToolResult)
    (oracle : ClientCall → Except String Value) :
    ToolM.run (.call c (fun r => .pure (f r))) oracle = f (oracle c) := rfl

lemma numCalls_call_pure (c : ClientCall) (f : Except String Value → ToolResult)
    (oracle : ClientCall → Except String Value) :
    ToolM.numCalls (.call c (fun r => .pure (f r))) oracle = 1 := rfl

lemma addIfTruthy_blank (ps : List (String × String)) (k : String)
    (o : Option String) : addIfTruthy ps k (blankFalsy o) = addIfTruthy ps k o := by
  cases o with
  | none => rfl
  | some s =>
      by_cases h : s = "" <;> simp [blankFalsy, addIfTruthy, h]

lemma addIfTruthyV_blank (d : List (String × Value)) (k : String)
    (o : Option String) : addIfTruthyV d k (blankFalsy o) = addIfTruthyV d k o := by
  cases o with
  | none => rfl
  | some s =>
      by_cases h : s = "" <;> simp [blankFalsy, addIfTruthyV, h]

lemma orDefault_blank (o : Option String) (d : String) :
    orDefault (blankFalsy o) d = orDefault o d := by
  cases o with
  | none => rfl
  | some s =>
      by_cases h : s = "" <;> simp [blankFalsy, orDefault, h]

lemma search_dns_records_ip_blank (ps : List (String × String)) (rt : RecordType)
    (o : Option String) :
    search_dns_records_ip ps rt (blankFalsy o) = search_dns_records_ip ps rt o := by
  cases o with
  | none => rfl
  | some s =>
      by_cases h : s = "" <;> simp [blankFalsy, search_dns_records_ip, h]

lemma lookup_append_some {k v : String} :
    ∀ (ps qs : List (String × String)), List.lookup k ps = some v →
      List.lookup k (ps ++ qs) = some v := by
  intro ps qs h
  induction ps with
  | nil => simp [List.lookup] at h
  | cons p rest ih =>
      rw [List.cons_append]
      rw [List.lookup] at h ⊢
      cases hk : (k == p.1) with
      | true => rw [hk] at h; simpa [hk] using h
      | false => rw [hk] at h; simpa [hk] using ih h

lemma lookup_addIfTruthy {k v : String} (ps : List (String × String))
    (k2 : String) (o : Option String) (h : List.lookup k ps = some v) :
    List.lookup k (addIfTruthy ps k2 o) = some v := by
  cases o with
  | none => exact h
  | some s =>
      simp only [addIfTruthy]
      split
      · exact h
      · exact lookup_append_some ps _ h

lemma lookup_ip_param {k v : String} (ps : List (String × String))
    (rt : RecordType) (o : Option String) (h : List.lookup k ps = some v) :
    List.lookup k (search_dns_records_ip ps rt o) = some v := by
  cases o with
  | none => exact h
  | some s =>
      simp only [search_dns_records_ip]
      repeat' split
      all_goals first
        | exact h
        | exact lookup_append_some ps _ h

lemma lookup_status_param {k v : String} (ps : List (String × String))
    (o : Option IpStatus) (h : List.lookup k ps = some v) :
    List.lookup k ((match o with
      | some st => ps ++ [("status", ipStatusStr st)]
      | none => ps)) = some v := by
  cases o with
  | none => exact h
  | some st => exact lookup_append_some ps _ h

lemma lookup_zf_param {k v : String} (ps : List (String × String))
    (o : Option ZoneFormat) (h : List.lookup k ps = some v) :
    List.lookup k ((match o with
      | some zf => ps ++ [("zone_format", zoneFormatStr zf)]
      | none => ps)) = some v := by
  cases o with
  | none => exact h
  | some zf => exact lookup_append_some ps _ h

lemma dnsTools_uniform : ∀ t ∈ dnsTools, UniformTool t := by
  intro t ht
  simp only [dnsTools, List.mem_cons, List.not_mem_nil, or_false] at ht
  rcases ht with rfl|rfl|rfl|rfl|rfl|rfl|rfl|rfl|rfl|rfl|rfl|rfl
  · exact ⟨"Error searching records: ", fun a => ⟨_, _, rfl, Or.inl ⟨rfl, fun v => rfl⟩⟩⟩
  · exact ⟨"Error fetching zone records: ", fun a => ⟨_, _, rfl, Or.inl ⟨rfl, fun v => rfl⟩⟩⟩
  · exact ⟨"Error creating A record: ", fun a => ⟨_, _, rfl, Or.inr ⟨rfl, _, fun v => rfl⟩⟩⟩
  · exact ⟨"Error creating AAAA record: ", fun a => ⟨_, _, rfl, Or.inr ⟨rfl, _, fun v => rfl⟩⟩⟩
  · exact ⟨"Error creating CNAME record: ", fun a => ⟨_, _, rfl, Or.inr ⟨rfl, _, fun v => rfl⟩⟩⟩
  · exact ⟨"Error creating host record: ", fun a => ⟨_, _, rfl, Or.inr ⟨rfl, _, fun v => rfl⟩⟩⟩
  · exact ⟨"Error creating PTR record: ", fun a => ⟨_, _, rfl, Or.inr ⟨rfl, _, fun v => rfl⟩⟩⟩
  · exact ⟨"Error creating MX record: ", fun a => ⟨_, _, rfl, Or.inr ⟨rfl, _, fun v => rfl⟩⟩⟩
  · exact ⟨"Error creating TXT record: ", fun a => ⟨_, _, rfl, Or.inr ⟨rfl, _, fun v => rfl⟩⟩⟩
  · exact ⟨"Error creating SRV record: ", fun a => ⟨_, _, rfl, Or.inr ⟨rfl, _, fun v => rfl⟩⟩⟩
  · exact ⟨"Error updating record: ", fun a => ⟨_, _, rfl, Or.inr ⟨rfl, _, fun v => rfl⟩⟩⟩
  · exact ⟨"Error deleting record: ", fun a => ⟨_, _, rfl, Or.inr ⟨rfl, _, fun v => rfl⟩⟩⟩

lemma networkTools_uniform : ∀ t ∈ networkTools, UniformTool t := by
  intro t ht
  simp only [networkTools, List.mem_cons, List.not_mem_nil, or_false] at ht
  rcases ht with rfl|rfl|rfl|rfl|rfl|rfl
  · exact ⟨"Error fetching networks: ", fun a => ⟨_, _, rfl, Or.inl ⟨rfl, fun v => rfl⟩⟩⟩
  · exact ⟨"Error creating network: ", fun a => ⟨_, _, rfl, Or.inr ⟨rfl, _, fun v => rfl⟩⟩⟩
  · exact ⟨"Error deleting network: ", fun a => ⟨_, _, rfl, Or.inr ⟨rfl, _, fun v => rfl⟩⟩⟩
  · exact ⟨"Error getting next available IP: ", fun a => ⟨_, _, rfl, Or.inl ⟨rfl, fun v => rfl⟩⟩⟩
  · exact ⟨"Error searching IP addresses: ", fun a => ⟨_, _, rfl, Or.inl ⟨rfl, fun v => rfl⟩⟩⟩
  · exact ⟨"Error fetching network details: ", fun a => ⟨_, _, rfl, Or.inl ⟨rfl, fun v => rfl⟩⟩⟩

lemma dhcpTools_uniform : ∀ t ∈ dhcpTools, UniformTool t := by
  intro t ht
  simp only [dhcpTools, List.mem_cons, List.not_mem_nil, or_false] at ht
  rcases ht with rfl|rfl|rfl|rfl|rfl|rfl
  · exact ⟨"Error fetching fixed addresses: ", fun a => ⟨_, _, rfl, Or.inl ⟨rfl, fun v => rfl⟩⟩⟩
  · exact ⟨"Error creating fixed address: ", fun a => ⟨_, _, rfl, Or.inr ⟨rfl, _, fun v => rfl⟩⟩⟩
  · exact ⟨"Error deleting fixed address: ", fun a => ⟨_, _, rfl, Or.inr ⟨rfl, _, fun v => rfl⟩⟩⟩
  · exact ⟨"Error fetching leases: ", fun a => ⟨_, _, rfl, Or.inl ⟨rfl, fun v => rfl⟩⟩⟩
  · exact ⟨"Error fetching DHCP ranges: ", fun a => ⟨_, _, rfl, Or.inl ⟨rfl, fun v => rfl⟩⟩⟩
  · exact ⟨"Error creating DHCP range: ", fun a => ⟨_, _, rfl, Or.inr ⟨rfl, _, fun v => rfl⟩⟩⟩

lemma zoneTools_uniform : ∀ t ∈ zoneTools, UniformTool t := by
  intro t ht
  simp only [zoneTools, List.mem_cons, List.not_mem_nil, or_false] at ht
  rcases ht with rfl|rfl|rfl
  · exact ⟨"Error fetching zones: ", fun a => ⟨_, _, rfl, Or.inl ⟨rfl, fun v => rfl⟩⟩⟩
  · exact ⟨"Error creating zone: ", fun a => ⟨_, _, rfl, Or.inr ⟨rfl, _, fun v => rfl⟩⟩⟩
  · exact ⟨"Error deleting zone: ", fun a => ⟨_, _, rfl, Or.inr ⟨rfl, _, fun v => rfl⟩⟩⟩

lemma gridTools_uniform : ∀ t ∈ gridTools, UniformTool t := by
  intro t ht
  simp only [gridTools, List.mem_cons, List.not_mem_nil, or_false] at ht
  rcases ht with rfl|rfl|rfl|rfl|rfl|rfl|rfl|rfl
  · exact ⟨"Error fetching grid info: ", fun a => ⟨_, _, rfl, Or.inl ⟨rfl, fun v => rfl⟩⟩⟩
  · exact ⟨"Error fetching members: ", fun a => ⟨_, _, rfl, Or.inl ⟨rfl, fun v => rfl⟩⟩⟩
  · exact ⟨"Error restarting services: ", fun a => ⟨_, _, rfl, Or.inl ⟨rfl, fun v => rfl⟩⟩⟩
  · exact ⟨"Error fetching object: ", fun a => ⟨_, _, rfl, Or.inl ⟨rfl, fun v => rfl⟩⟩⟩
  · exact ⟨"Error searching: ", fun a => ⟨_, _, rfl, Or.inl ⟨rfl, fun v => rfl⟩⟩⟩
  · exact ⟨"Error fetching network views: ", fun a => ⟨_, _, rfl, Or.inl ⟨rfl, fun v => rfl⟩⟩⟩
  · exact ⟨"Error fetching DNS views: ", fun a => ⟨_, _, rfl, Or.inl ⟨rfl, fun v => rfl⟩⟩⟩
  · exact ⟨"Error fetching extensible attribute definitions: ",
      fun a => ⟨_, _, rfl, Or.inl ⟨rfl, fun v => rfl⟩⟩⟩

lemma mem_tools_cases {t : Tool} (ht : t ∈ tools) :
    t ∈ dnsTools ∨ t ∈ networkTools ∨ t ∈ dhcpTools ∨ t ∈ zoneTools ∨
      t ∈ gridTools := by
  have h1 := List.mem_append.1 ht
  rcases h1 with h1|h
  swap
  · exact Or.inr (Or.inr (Or.inr (Or.inr h)))
  have h2 := List.mem_append.1 h1
  rcases h2 with h2|h
  swap
  · exact Or.inr (Or.inr (Or.inr (Or.inl h)))
  have h3 := List.mem_append.1 h2
  rcases h3 with h3|h
  swap
  · exact Or.inr (Or.inr (Or.inl h))
  have h4 := List.mem_append.1 h3
  rcases h4 with h|h
  · exact Or.inl h
  · exact Or.inr (Or.inl h)

lemma tools_uniform : ∀ t ∈ tools, UniformTool t := by
  intro t ht
  rcases mem_tools_cases ht with h|h|h|h|h
  · exact dnsTools_uniform t h
  · exact networkTools_uniform t h
  · exact dhcpTools_uniform t h
  · exact zoneTools_uniform t h
  · exact gridTools_uniform t h

lemma dnsTools_norm : ∀ t ∈ dnsTools, NormalizeInvariant t := by
  intro t ht
  simp only [dnsTools, List.mem_cons, List.not_mem_nil, or_false] at ht
  rcases ht with rfl|rfl|rfl|rfl|rfl|rfl|rfl|rfl|rfl|rfl|rfl|rfl
  · intro a
    simp only [tool_search_dns_records, search_dns_records_handle,
      search_dns_records_params, search_dns_records_normalize,
      addIfTruthy_blank, orDefault_blank, search_dns_records_ip_blank]
  · intro a
    simp only [tool_get_all_records_in_zone, get_all_records_in_zone_handle,
      get_all_records_in_zone_params, get_all_records_in_zone_normalize,
      addIfTruthy_blank]
  · intro a
    simp only [tool_create_a_record, create_a_record_handle, create_a_record_data,
      create_a_record_normalize, addIfTruthyV_blank]
  · intro a
    simp only [tool_create_aaaa_record, create_aaaa_record_handle,
      create_aaaa_record_data, create_aaaa_record_normalize, addIfTruthyV_blank]
  · intro a
    simp only [tool_create_cname_record, create_cname_record_handle,
      create_cname_record_data, create_cname_record_normalize, addIfTruthyV_blank]
  · intro a
    simp only [tool_create_host_record, create_host_record_handle,
      create_host_record_data, create_host_record_normalize, addIfTruthyV_blank]
  · intro a
    simp only [tool_create_ptr_record, create_ptr_record_handle,
      create_ptr_record_data, create_ptr_record_normalize, addIfTruthyV_blank]
  · intro a
    simp only [tool_create_mx_record, create_mx_record_handle,
      create_mx_record_data, create_mx_record_normalize, addIfTruthyV_blank]
  · intro a
    simp only [tool_create_txt_record, create_txt_record_handle,
      create_txt_record_data, create_txt_record_normalize, addIfTruthyV_blank]
  · intro a
    simp only [tool_create_srv_record, create_srv_record_handle,
      create_srv_record_data, create_srv_record_normalize, addIfTruthyV_blank]
  · exact fun a => rfl
  · exact fun a => rfl

lemma networkTools_norm : ∀ t ∈ networkTools, NormalizeInvariant t := by
  intro t ht
  simp only [networkTools, List.mem_cons, List.not_mem_nil, or_false] at ht
  rcases ht with rfl|rfl|rfl|rfl|rfl|rfl
  · intro a
    simp only [tool_get_networks, get_networks_handle, get_networks_params,
      get_networks_normalize, addIfTruthy_blank, orDefault_blank]
  · intro a
    simp only [tool_create_network, create_network_handle, create_network_data,
      create_network_normalize, addIfTruthyV_blank]
  · exact fun a => rfl
  · exact fun a => rfl
  · intro a
    simp only [tool_search_ip_addresses, search_ip_addresses_handle,
      search_ip_addresses_params, search_ip_addresses_normalize, addIfTruthy_blank]
  · intro a
    simp only [tool_get_network_details, get_network_details_handle,
      get_network_details_params, get_network_details_normalize, orDefault_blank]

lemma dhcpTools_norm : ∀ t ∈ dhcpTools, NormalizeInvariant t := by
  intro t ht
  simp only [dhcpTools, List.mem_cons, List.not_mem_nil, or_false] at ht
  rcases ht with rfl|rfl|rfl|rfl|rfl|rfl
  · intro a
    simp only [tool_get_fixed_addresses, get_fixed_addresses_handle,
      get_fixed_addresses_params, get_fixed_addresses_normalize, addIfTruthy_blank]
  · intro a
    simp only [tool_create_fixed_address, create_fixed_address_handle,
      create_fixed_address_data, create_fixed_address_normalize, addIfTruthyV_blank]
  · exact fun a => rfl
  · intro a
    simp only [tool_get_dhcp_leases, get_dhcp_leases_handle, get_dhcp_leases_params,
      get_dhcp_leases_normalize, addIfTruthy_blank]
  · intro a
    simp only [tool_get_dhcp_ranges, get_dhcp_ranges_handle, get_dhcp_ranges_params,
      get_dhcp_ranges_normalize, addIfTruthy_blank]
  · intro a
    simp only [tool_create_dhcp_range, create_dhcp_range_handle,
      create_dhcp_range_data, create_dhcp_range_normalize, addIfTruthyV_blank]

lemma zoneTools_norm : ∀ t ∈ zoneTools, NormalizeInvariant t := by
  intro t ht
  simp only [zoneTools, List.mem_cons, List.not_mem_nil, or_false] at ht
  rcases ht with rfl|rfl|rfl
  · intro a
    simp only [tool_get_zones, get_zones_handle, get_zones_params,
      get_zones_normalize, addIfTruthy_blank]
  · intro a
    simp only [tool_create_zone, create_zone_handle, create_zone_data,
      create_zone_normalize, addIfTruthyV_blank]
  · exact fun a => rfl

lemma gridTools_norm : ∀ t ∈ gridTools, NormalizeInvariant t := by
  intro t ht
  simp only [gridTools, List.mem_cons, List.not_mem_nil, or_false] at ht
  rcases ht with rfl|rfl|rfl|rfl|rfl|rfl|rfl|rfl
  · exact fun a => rfl
  · exact fun a => rfl
  · exact fun a => rfl
  · intro a
    simp only [tool_get_object_by_ref, get_object_by_ref_handle,
      get_object_by_ref_params, get_object_by_ref_normalize, addIfTruthy_blank]
  · exact fun a => rfl
  · exact fun a => rfl
  · exact fun a => rfl
  · exact fun a => rfl

lemma tools_norm : ∀ t ∈ tools, NormalizeInvariant t := by
  intro t ht
  rcases mem_tools_cases ht with h|h|h|h|h
  · exact dnsTools_norm t h
  · exact networkTools_norm t h
  · exact dhcpTools_norm t h
  · exact zoneTools_norm t h
  · exact gridTools_norm t h

lemma lookup_cons_self (k v : String) (rest : List (String × String)) :
    List.lookup k ((k, v) :: rest) = some v := by
  simp [List.lookup]

lemma dnsTools_search : ∀ t ∈ dnsTools, SearchSendsMax t := by
  intro t ht
  simp only [dnsTools, List.mem_cons, List.not_mem_nil, or_false] at ht
  rcases ht with rfl|rfl|rfl|rfl|rfl|rfl|rfl|rfl|rfl|rfl|rfl|rfl
  · intro f hf a
    injection hf with hf
    subst hf
    refine ⟨_, _, _, rfl, ?_⟩
    simp only [search_dns_records_params]
    refine lookup_ip_param _ _ _ ?_
    repeat' refine lookup_addIfTruthy _ _ _ ?_
    exact lookup_cons_self _ _ _
  · intro f hf a
    injection hf with hf
    subst hf
    refine ⟨_, _, _, rfl, ?_⟩
    simp only [get_all_records_in_zone_params]
    repeat' refine lookup_addIfTruthy _ _ _ ?_
    simp [List.lookup]
  all_goals exact fun f hf => Option.noConfusion hf

lemma networkTools_search : ∀ t ∈ networkTools, SearchSendsMax t := by
  intro t ht
  simp only [networkTools, List.mem_cons, List.not_mem_nil, or_false] at ht
  rcases ht with rfl|rfl|rfl|rfl|rfl|rfl
  · intro f hf a
    injection hf with hf
    subst hf
    refine ⟨_, _, _, rfl, ?_⟩
    simp only [get_networks_params]
    repeat' refine lookup_addIfTruthy _ _ _ ?_
    exact lookup_cons_self _ _ _
  · exact fun f hf => Option.noConfusion hf
  · exact fun f hf => Option.noConfusion hf
  · exact fun f hf => Option.noConfusion hf
  · intro f hf a
    injection hf with hf
    subst hf
    refine ⟨_, _, _, rfl, ?_⟩
    simp only [search_ip_addresses_params]
    refine lookup_addIfTruthy _ _ _ ?_
    refine lookup_status_param _ _ ?_
    repeat' refine lookup_addIfTruthy _ _ _ ?_
    exact lookup_cons_self _ _ _
  · exact fun f hf => Option.noConfusion hf

lemma dhcpTools_search : ∀ t ∈ dhcpTools, SearchSendsMax t := by
  intro t ht
  simp only [dhcpTools, List.mem_cons, List.not_mem_nil, or_false] at ht
  rcases ht with rfl|rfl|rfl|rfl|rfl|rfl
  · intro f hf a
    injection hf with hf
    subst hf
    refine ⟨_, _, _, rfl, ?_⟩
    simp only [get_fixed_addresses_params]
    repeat' refine lookup_addIfTruthy _ _ _ ?_
    exact lookup_cons_self _ _ _
  · exact fun f hf => Option.noConfusion hf
  · exact fun f hf => Option.noConfusion hf
  · intro f hf a
    injection hf with hf
    subst hf
    refine ⟨_, _, _, rfl, ?_⟩
    simp only [get_dhcp_leases_params]
    repeat' refine lookup_addIfTruthy _ _ _ ?_
    exact lookup_cons_self _ _ _
  · intro f hf a
    injection hf with hf
    subst hf
    refine ⟨_, _, _, rfl, ?_⟩
    simp only [get_dhcp_ranges_params]
    repeat' refine lookup_addIfTruthy _ _ _ ?_
    exact lookup_cons_self _ _ _
  · exact fun f hf => Option.noConfusion hf

lemma zoneTools_search : ∀ t ∈ zoneTools, SearchSendsMax t := by
  intro t ht
  simp only [zoneTools, List.mem_cons, List.not_mem_nil, or_false] at ht
  rcases ht with rfl|rfl|rfl
  · intro f hf a
    injection hf with hf
    subst hf
    refine ⟨_, _, _, rfl, ?_⟩
    simp only [get_zones_params]
    refine lookup_zf_param _ _ ?_
    repeat' refine lookup_addIfTruthy _ _ _ ?_
    exact lookup_cons_self _ _ _
  · exact fun f hf => Option.noConfusion hf
  · exact fun f hf => Option.noConfusion hf

lemma gridTools_search : ∀ t ∈ gridTools, SearchSendsMax t := by
  intro t ht
  simp only [gridTools, List.mem_cons, List.not_mem_nil, or_false] at ht
  rcases ht with rfl|rfl|rfl|rfl|rfl|rfl|rfl|rfl
  · exact fun f hf => Option.noConfusion hf
  · intro f hf a
    injection hf with hf
    subst hf
    exact ⟨_, _, _, rfl, lookup_cons_self _ _ _⟩
  · exact fun f hf => Option.noConfusion hf
  · exact fun f hf => Option.noConfusion hf
  · intro f hf a
    injection hf with hf
    subst hf
    refine ⟨_, _, _, rfl, ?_⟩
    simp [List.lookup]
  · intro f hf a
    injection hf with hf
    subst hf
    exact ⟨_, _, _, rfl, lookup_cons_self _ _ _⟩
  · intro f hf a
    injection hf with hf
    subst hf
    exact ⟨_, _, _, rfl, lookup_cons_self _ _ _⟩
  · intro f hf a
    injection hf with hf
    subst hf
    exact ⟨_, _, _, rfl, lookup_cons_self _ _ _⟩

lemma tools_search : ∀ t ∈ tools, SearchSendsMax t := by
  intro t ht
  rcases mem_tools_cases ht with h|h|h|h|h
  · exact dnsTools_search t h
  · exact networkTools_search t h
  · exact dhcpTools_search t h
  · exact zoneTools_search t h
  · exact gridTools_search t h

lemma mem_addIfTruthyV {x : String × Value} (d : List (String × Value))
    (k : String) (o : Option String) (h : x ∈ d) : x ∈ addIfTruthyV d k o := by
  cases o with
  | none => exact h
  | some s =>
      simp only [addIfTruthyV]
      split
      · exact h
      · exact List.mem_append_left _ h

lemma mem_addIfSomeV {x : String × Value} (d : List (String × Value))
    (k : String) (o : Option Value) (h : x ∈ d) : x ∈ addIfSomeV d k o := by
  cases o with
  | none => exact h
  | some v => exact List.mem_append_left _ h

lemma mem_cond_append {x : String × Value} {d e : List (String × Value)}
    (b : Bool) (h : x ∈ d) : x ∈ (if b then d ++ e else d) := by
  cases b
  · exact h
  · exact List.mem_append_left _ h

lemma ttl_in_addTtl (d : List (String × Value)) (n : Int) :
    ("ttl", Value.num n) ∈ addTtl d (some n) :=
  List.mem_append_right _ (List.mem_cons_self _ _)

lemma use_ttl_in_addTtl (d : List (String × Value)) (n : Int) :
    ("use_ttl", Value.bool true) ∈ addTtl d (some n) :=
  List.mem_append_right _ (List.mem_cons_of_mem _ (List.mem_cons_self _ _))

lemma eq_key_addIfTruthyV {x : String × Value} {d : List (String × Value)}
    {k : String} {o : Option String} (h : x ∈ addIfTruthyV d k o) :
    x ∈ d ∨ x.1 = k := by
  cases o with
  | none => exact Or.inl h
  | some s =>
      simp only [addIfTruthyV] at h
      split at h
      · exact Or.inl h
      · rcases List.mem_append.1 h with h|h
        · exact Or.inl h
        · simp only [List.mem_singleton] at h
          rw [h]
          exact Or.inr rfl

lemma eq_key_addTtl {x : String × Value} {d : List (String × Value)}
    {o : Option Int} (h : x ∈ addTtl d o) :
    x ∈ d ∨ x.1 = "ttl" ∨ x.1 = "use_ttl" := by
  cases o with
  | none => exact Or.inl h
  | some n =>
      rcases List.mem_append.1 h with h|h
      · exact Or.inl h
      · rcases List.mem_cons.1 h with h|h
        · rw [h]; exact Or.inr (Or.inl rfl)
        · simp only [List.mem_singleton] at h
          rw [h]
          exact Or.inr (Or.inr rfl)

/-! ## Claim theorems -/

/-- C1: for every registered tool, a single invocation of the handler
takes a flat validated argument object, issues exactly one HTTP request
through the client (the call carries the query parameters or JSON body
built from the arguments), and serializes the raw response back out:
search/fetch/function-call tools return the JSON-stringified response,
while create/update/delete tools return the response reference inside a
fixed success message. -/
theorem C1_handler_discipline :
    ∀ t ∈ tools, ∀ a : t.Args,
      ∃ (c : ClientCall) (sText : Value → String) (errPre : String),
        t.handler a = ToolM.call c (fun r => .pure (respond sText errPre r)) ∧
        (∀ oracle, (t.handler a).numCalls oracle = 1) ∧
        (∀ v, (t.handler a).run (fun _ => .ok v) = toolResult (sText v)) ∧
        ((stringifySuccess c = true ∧ ∀ v, sText v = jsonStringify2 v) ∨
         (stringifySuccess c = false ∧ ∃ okPre, ∀ v, sText v = okPre ++ jsToString v)) := by
  intro t ht a
  obtain ⟨ep, h⟩ := tools_uniform t ht
  obtain ⟨c, sText, heq, hclass⟩ := h a
  refine ⟨c, sText, ep, heq, ?_, ?_, hclass⟩
  · intro oracle
    rw [heq]
    rfl
  · intro v
    rw [heq]
    rfl

/-- Witness for C1 at the `get_fixed_addresses` tool with a concrete
argument object. -/
theorem C1_handler_discipline_witness :
    tool_get_fixed_addresses ∈ tools ∧
    (∃ (c : ClientCall) (sText : Value → String) (errPre : String),
      tool_get_fixed_addresses.handler
          ⟨none, none, none, none, none, 100⟩ =
        ToolM.call c (fun r => .pure (respond sText errPre r)) ∧
      (∀ oracle, (tool_get_fixed_addresses.handler
          ⟨none, none, none, none, none, 100⟩).numCalls oracle = 1) ∧
      (∀ v, (tool_get_fixed_addresses.handler
          ⟨none, none, none, none, none, 100⟩).run (fun _ => .ok v) =
        toolResult (sText v)) ∧
      ((stringifySuccess c = true ∧ ∀ v, sText v = jsonStringify2 v) ∨
       (stringifySuccess c = false ∧ ∃ okPre, ∀ v, sText v = okPre ++ jsToString v))) :=
  ⟨by simp [tools, dnsTools, networkTools, dhcpTools, zoneTools, gridTools],
   C1_handler_discipline tool_get_fixed_addresses
     (by simp [tools, dnsTools, networkTools, dhcpTools, zoneTools, gridTools])
     ⟨none, none, none, none, none, 100⟩⟩

/-- C3: for every tool the error handling is exactly catch-and-return:
when the client call throws, the handler returns a result whose single
text content is the fixed context text followed by the interpolated
error message, with the isError flag set. -/
theorem C3_error_handling :
    ∀ t ∈ tools, ∃ errPre : String, ∀ (a : t.Args) (e : String),
      (t.handler a).run (fun _ => .error e) =
        { content := [{ type := "text", text := errPre ++ jsErrorToString e }],
          isError := true } := by
  intro t ht
  obtain ⟨ep, h⟩ := tools_uniform t ht
  refine ⟨ep, fun a e => ?_⟩
  obtain ⟨c, sText, heq, _⟩ := h a
  rw [heq]
  rfl

/-- Witness for C3 at the `delete_zone` tool with a concrete reference
and error message. -/
theorem C3_error_handling_witness :
    tool_delete_zone ∈ tools ∧
    (∃ errPre : String, ∀ (a : DeleteZoneArgs) (e : String),
      (tool_delete_zone.handler a).run (fun _ => .error e) =
        { content := [{ type := "text", text := errPre ++ jsErrorToString e }],
          isError := true }) :=
  ⟨by simp [tools, dnsTools, networkTools, dhcpTools, zoneTools, gridTools],
   C3_error_handling tool_delete_zone
     (by simp [tools, dnsTools, networkTools, dhcpTools, zoneTools, gridTools])⟩

/-- C9: every tool handler is total over its validated inputs; the
result always has exactly one content item, of type "text", and the
isError flag is set exactly when the client call threw. -/
theorem C9_total_single_text :
    ∀ t ∈ tools, ∀ (a : t.Args) (r : Except String Value),
      ((t.handler a).run (fun _ => r)).content.length = 1 ∧
      (∀ ci ∈ ((t.handler a).run (fun _ => r)).content, ci.type = "text") ∧
      (((t.handler a).run (fun _ => r)).isError = true ↔ ∃ e, r = .error e) := by
  intro t ht a r
  obtain ⟨ep, h⟩ := tools_uniform t ht
  obtain ⟨c, sText, heq, _⟩ := h a
  rw [heq, run_call_pure]
  cases r with
  | ok v =>
      refine ⟨rfl, ?_, ?_⟩
      · intro ci hci
        simp only [respond, toolResult, List.mem_singleton] at hci
        rw [hci]
      · constructor
        · intro hfalse
          simp [respond, toolResult] at hfalse
        · rintro ⟨e, he⟩
          exact Except.noConfusion he
  | error e =>
      refine ⟨rfl, ?_, ?_⟩
      · intro ci hci
        simp only [respond, toolResult, List.mem_singleton] at hci
        rw [hci]
      · exact ⟨fun _ => ⟨e, rfl⟩, fun _ => rfl⟩

/-- Witness for C9 at the `get_networks` tool with a concrete argument
object and a concrete successful response. -/
theorem C9_total_single_text_witness :
    tool_get_networks ∈ tools ∧
    (((tool_get_networks.handler ⟨none, none, none, 100, none⟩).run
        (fun _ => .ok (.arr []))).content.length = 1 ∧
     (∀ ci ∈ ((tool_get_networks.handler ⟨none, none, none, 100, none⟩).run
        (fun _ => .ok (.arr []))).content, ci.type = "text") ∧
     (((tool_get_networks.handler ⟨none, none, none, 100, none⟩).run
        (fun _ => .ok (.arr []))).isError = true ↔ ∃ e, (Except.ok (ε := String) (Value.arr [])) = .error e)) :=
  ⟨by simp [tools, dnsTools, networkTools, dhcpTools, zoneTools, gridTools],
   C9_total_single_text tool_get_networks
     (by simp [tools, dnsTools, networkTools, dhcpTools, zoneTools, gridTools])
     ⟨none, none, none, 100, none⟩ (.ok (.arr []))⟩

/-- C6: no search tool paginates: each sends exactly one GET whose
_max_results query parameter is the string form of the max_results
argument, whatever the response; the schema default of max_results is
100 for every search tool except get_all_records_in_zone, whose default
is 500. -/
theorem C6_no_pagination :
    (∀ t ∈ tools, ∀ f, t.maxResults = some f → ∀ a : t.Args,
      ∃ ot ps k, t.handler a = ToolM.call (ClientCall.get ot ps) k ∧
        List.lookup "_max_results" ps = some (toString (f a)) ∧
        (∀ oracle, (t.handler a).numCalls oracle = 1)) ∧
    search_dns_records_mr_default none = 100 ∧
    get_all_records_in_zone_mr_default none = 500 ∧
    get_networks_mr_default none = 100 ∧
    search_ip_addresses_mr_default none = 100 ∧
    get_fixed_addresses_mr_default none = 100 ∧
    get_dhcp_leases_mr_default none = 100 ∧
    get_dhcp_ranges_mr_default none = 100 ∧
    get_zones_mr_default none = 100 ∧
    get_members_mr_default none = 100 ∧
    global_search_mr_default none = 100 ∧
    get_network_views_mr_default none = 100 ∧
    get_dns_views_mr_default none = 100 ∧
    get_extensible_attribute_definitions_mr_default none = 100 := by
  refine ⟨?_, rfl, rfl, rfl, rfl, rfl, rfl, rfl, rfl, rfl, rfl, rfl, rfl, rfl⟩
  intro t ht f hf a
  obtain ⟨ot, ps, k, heq, hlook⟩ := tools_search t ht f hf a
  refine ⟨ot, ps, k, heq, hlook, ?_⟩
  intro oracle
  obtain ⟨ep, h⟩ := tools_uniform t ht
  obtain ⟨c, sText, heq2, _⟩ := h a
  rw [heq2]
  rfl

/-- Witness for C6 at the `get_dhcp_ranges` tool with a concrete
argument object carrying max_results = 7. -/
theorem C6_no_pagination_witness :
    tool_get_dhcp_ranges ∈ tools ∧
    tool_get_dhcp_ranges.maxResults = some (fun a => a.max_results) ∧
    (∃ ot ps k, tool_get_dhcp_ranges.handler ⟨none, none, 7⟩ =
        ToolM.call (ClientCall.get ot ps) k ∧
      List.lookup "_max_results" ps = some (toString (7 : Int)) ∧
      (∀ oracle,
        (tool_get_dhcp_ranges.handler ⟨none, none, 7⟩).numCalls oracle = 1)) :=
  ⟨by simp [tools, dnsTools, networkTools, dhcpTools, zoneTools, gridTools],
   rfl,
   (C6_no_pagination.1 tool_get_dhcp_ranges
     (by simp [tools, dnsTools, networkTools, dhcpTools, zoneTools, gridTools])
     (fun a => a.max_results) rfl ⟨none, none, 7⟩)⟩

/-- C10: for every tool a falsy optional argument (empty string filter,
false flag) is omitted from the outgoing parameters or body and is
therefore indistinguishable from an absent argument; by contrast a
defined ttl, even 0, is always included in the body together with
use_ttl = true. -/
theorem C10_falsy_omitted_ttl_kept :
    (∀ t ∈ tools, ∀ a : t.Args, t.handler (t.normalize a) = t.handler a) ∧
    (∀ (a : CreateARecordArgs) (n : Int), a.ttl = some n →
      ("ttl", Value.num n) ∈ create_a_record_data a ∧
      ("use_ttl", Value.bool true) ∈ create_a_record_data a) ∧
    (∀ a : CreateARecordArgs, a.disable = false →
      ∀ v, ("disable", v) ∉ create_a_record_data a) ∧
    (∀ (a : CreateAaaaRecordArgs) (n : Int), a.ttl = some n →
      ("ttl", Value.num n) ∈ create_aaaa_record_data a ∧
      ("use_ttl", Value.bool true) ∈ create_aaaa_record_data a) ∧
    (∀ (a : CreateCnameRecordArgs) (n : Int), a.ttl = some n →
      ("ttl", Value.num n) ∈ create_cname_record_data a ∧
      ("use_ttl", Value.bool true) ∈ create_cname_record_data a) ∧
    (∀ (a : CreateHostRecordArgs) (n : Int), a.ttl = some n →
      ("ttl", Value.num n) ∈ create_host_record_data a ∧
      ("use_ttl", Value.bool true) ∈ create_host_record_data a) ∧
    (∀ (a : CreatePtrRecordArgs) (n : Int), a.ttl = some n →
      ("ttl", Value.num n) ∈ create_ptr_record_data a ∧
      ("use_ttl", Value.bool true) ∈ create_ptr_record_data a) ∧
    (∀ (a : CreateMxRecordArgs) (n : Int), a.ttl = some n →
      ("ttl", Value.num n) ∈ create_mx_record_data a ∧
      ("use_ttl", Value.bool true) ∈ create_mx_record_data a) ∧
    (∀ (a : CreateTxtRecordArgs) (n : Int), a.ttl = some n →
      ("ttl", Value.num n) ∈ create_txt_record_data a ∧
      ("use_ttl", Value.bool true) ∈ create_txt_record_data a) ∧
    (∀ (a : CreateSrvRecordArgs) (n : Int), a.ttl = some n →
      ("ttl", Value.num n) ∈ create_srv_record_data a ∧
      ("use_ttl", Value.bool true) ∈ create_srv_record_data a) := by
  refine ⟨fun t ht a => tools_norm t ht a, ?_, ?_, ?_, ?_, ?_, ?_, ?_, ?_, ?_⟩
  · intro a n h
    simp only [create_a_record_data, h]
    exact ⟨mem_cond_append _ (mem_addIfTruthyV _ _ _ (ttl_in_addTtl _ n)),
           mem_cond_append _ (mem_addIfTruthyV _ _ _ (use_ttl_in_addTtl _ n))⟩
  · intro a hd v hmem
    simp only [create_a_record_data, hd, Bool.false_eq_true, if_false] at hmem
    rcases eq_key_addIfTruthyV hmem with h|h
    · rcases eq_key_addTtl h with h|h|h
      · rcases eq_key_addIfTruthyV h with h|h
        · simp at h
        · simp at h
      · simp at h
      · simp at h
    · simp at h
  · intro a n h
    simp only [create_aaaa_record_data, h]
    exact ⟨mem_addIfTruthyV _ _ _ (ttl_in_addTtl _ n),
           mem_addIfTruthyV _ _ _ (use_ttl_in_addTtl _ n)⟩
  · intro a n h
    simp only [create_cname_record_data, h]
    exact ⟨mem_addIfTruthyV _ _ _ (ttl_in_addTtl _ n),
           mem_addIfTruthyV _ _ _ (use_ttl_in_addTtl _ n)⟩
  · intro a n h
    simp only [create_host_record_data, h]
    exact ⟨List.mem_append_left _ (mem_addIfTruthyV _ _ _ (ttl_in_addTtl _ n)),
           List.mem_append_left _ (mem_addIfTruthyV _ _ _ (use_ttl_in_addTtl _ n))⟩
  · intro a n h
    simp only [create_ptr_record_data, h]
    exact ⟨mem_addIfTruthyV _ _ _ (ttl_in_addTtl _ n),
           mem_addIfTruthyV _ _ _ (use_ttl_in_addTtl _ n)⟩
  · intro a n h
    simp only [create_mx_record_data, h]
    exact ⟨mem_addIfTruthyV _ _ _ (ttl_in_addTtl _ n),
           mem_addIfTruthyV _ _ _ (use_ttl_in_addTtl _ n)⟩
  · intro a n h
    simp only [create_txt_record_data, h]
    exact ⟨mem_addIfTruthyV _ _ _ (ttl_in_addTtl _ n),
           mem_addIfTruthyV _ _ _ (use_ttl_in_addTtl _ n)⟩
  · intro a n h
    simp only [create_srv_record_data, h]
    exact ⟨mem_addIfTruthyV _ _ _ (ttl_in_addTtl _ n),
           mem_addIfTruthyV _ _ _ (use_ttl_in_addTtl _ n)⟩

/-- Witness for C10: the `create_a_record` body at a concrete argument
object with ttl 0 and empty comment contains ttl and use_ttl, an empty
comment behaves as an absent one, and a false disable flag is omitted. -/
theorem C10_falsy_omitted_ttl_kept_witness :
    tool_create_a_record ∈ tools ∧
    ((⟨"h.example.com", "10.0.0.1", none, some 0, some "", false⟩ :
        CreateARecordArgs).ttl = some 0) ∧
    ("ttl", Value.num 0) ∈
      create_a_record_data ⟨"h.example.com", "10.0.0.1", none, some 0, some "", false⟩ ∧
    ("use_ttl", Value.bool true) ∈
      create_a_record_data ⟨"h.example.com", "10.0.0.1", none, some 0, some "", false⟩ ∧
    tool_create_a_record.handler
        (tool_create_a_record.normalize
          ⟨"h.example.com", "10.0.0.1", none, some 0, some "", false⟩) =
      tool_create_a_record.handler
        ⟨"h.example.com", "10.0.0.1", none, some 0, some "", false⟩ ∧
    (∀ v, ("disable", v) ∉
      create_a_record_data ⟨"h.example.com", "10.0.0.1", none, some 0, some "", false⟩) := by
  have hmem : tool_create_a_record ∈ tools := by
    simp [tools, dnsTools, networkTools, dhcpTools, zoneTools, gridTools]
  have h := C10_falsy_omitted_ttl_kept
  refine ⟨hmem, rfl, ?_, ?_, ?_, ?_⟩
  · exact (h.2.1 ⟨"h.example.com", "10.0.0.1", none, some 0, some "", false⟩ 0 rfl).1
  · exact (h.2.1 ⟨"h.example.com", "10.0.0.1", none, some 0, some "", false⟩ 0 rfl).2
  · exact h.1 tool_create_a_record hmem
      ⟨"h.example.com", "10.0.0.1", none, some 0, some "", false⟩
  · exact h.2.2.1 ⟨"h.example.com", "10.0.0.1", none, some 0, some "", false⟩ rfl

lemma respOk_iff (r : HttpResponse) :
    respOk r = true ↔ (200 ≤ r.status ∧ r.status ≤ 299) := by
  simp [respOk, Bool.and_eq_true, decide_eq_true_eq]

/-- C2: the client builds GET/POST/PUT/DELETE requests against the
templated base URL https://host/wapi/v(version)/path, always attaches
the basic-auth Authorization header and the Content-Type:
application/json header, throws an error carrying the HTTP status and
response body text exactly when the status is not 2xx, and on a 2xx
response returns the parsed JSON body when the content type is JSON and
the body text otherwise. -/
theorem C2_client_contract :
    ∀ (cfg : InfobloxConfig) (m : Method) (path : String) (body : Option Value)
      (params : Option (List (String × String))),
      (InfobloxClient.request cfg m path body params).method = m ∧
      (InfobloxClient.request cfg m path body params).url =
        "https://" ++ cfg.host ++ "/wapi/v" ++ cfg.wapiVersion ++ "/" ++ path ∧
      ("Authorization",
        "Basic " ++ base64Encode (cfg.username ++ ":" ++ cfg.password)) ∈
        (InfobloxClient.request cfg m path body params).headers ∧
      ("Content-Type", "application/json") ∈
        (InfobloxClient.request cfg m path body params).headers ∧
      (∀ resp : HttpResponse,
        (¬(200 ≤ resp.status ∧ resp.status ≤ 299) →
          InfobloxClient.handleResponse resp =
            .error ("Infoblox API error (" ++ toString resp.status ++ "): " ++
              resp.text)) ∧
        (∀ e, InfobloxClient.handleResponse resp = .error e →
          ¬(200 ≤ resp.status ∧ resp.status ≤ 299)) ∧
        (200 ≤ resp.status ∧ resp.status ≤ 299 →
          (ctIsJson resp.contentType = true →
            InfobloxClient.handleResponse resp = .ok resp.json) ∧
          (ctIsJson resp.contentType = false →
            InfobloxClient.handleResponse resp = .ok (.str resp.text)))) := by
  intro cfg m path body params
  refine ⟨rfl, rfl, List.mem_cons_self _ _,
    List.mem_cons_of_mem _ (List.mem_cons_self _ _), ?_⟩
  intro resp
  refine ⟨?_, ?_, ?_⟩
  · intro h
    rw [InfobloxClient.handleResponse, if_neg]
    intro hok
    exact h (respOk_iff resp |>.1 hok)
  · intro e he hok
    rw [InfobloxClient.handleResponse, if_pos ((respOk_iff resp).2 hok)] at he
    split at he
    · exact Except.noConfusion he
    · exact Except.noConfusion he
  · intro hok
    constructor
    · intro hc
      rw [InfobloxClient.handleResponse, if_pos ((respOk_iff resp).2 hok), if_pos hc]
    · intro hc
      rw [InfobloxClient.handleResponse, if_pos ((respOk_iff resp).2 hok), if_neg]
      rw [hc]
      exact Bool.false_ne_true

/-- Witness for C2 at a concrete configuration, a failing response with
status 404, and a successful JSON response with status 200. -/
theorem C2_client_contract_witness :
    ("Authorization",
      "Basic " ++ base64Encode ("admin" ++ ":" ++ "pw")) ∈
      (InfobloxClient.request ⟨"ib.example.com", "admin", "pw", "2.12", true⟩
        .GET "network" none none).headers ∧
    ¬(200 ≤ (404 : Nat) ∧ (404 : Nat) ≤ 299) ∧
    InfobloxClient.handleResponse ⟨404, some "text/plain", "not found", .null⟩ =
      .error ("Infoblox API error (" ++ toString (404 : Nat) ++ "): " ++ "not found") ∧
    (200 ≤ (200 : Nat) ∧ (200 : Nat) ≤ 299) ∧
    ctIsJson (some "application/json") = true ∧
    InfobloxClient.handleResponse ⟨200, some "application/json", "[]", .arr []⟩ =
      .ok (.arr []) := by
  have h := C2_client_contract ⟨"ib.example.com", "admin", "pw", "2.12", true⟩
    .GET "network" none none
  refine ⟨h.2.2.1, by decide, ?_, by decide, by decide, ?_⟩
  · exact (h.2.2.2.2 ⟨404, some "text/plain", "not found", .null⟩).1 (by decide)
  · exact ((h.2.2.2.2 ⟨200, some "application/json", "[]", .arr []⟩).2.2
      (by decide)).1 (by decide)

/-- C5: for every object reference string, update issues a PUT to
baseUrl/ref, delete issues a DELETE to baseUrl/ref, and the function
call issues a POST to baseUrl/ref with the _function query parameter set
to the function name; the reference is spliced into the URL verbatim. -/
theorem C5_ref_operations :
    ∀ (cfg : InfobloxConfig) (ref : String) (data : List (String × Value))
      (fn : String) (d : Option Value),
      ((toRequest cfg (.update ref data)).method = .PUT ∧
       (toRequest cfg (.update ref data)).url =
         InfobloxClient.baseUrl cfg ++ "/" ++ ref ∧
       (toRequest cfg (.update ref data)).query = []) ∧
      ((toRequest cfg (.delete ref)).method = .DELETE ∧
       (toRequest cfg (.delete ref)).url =
         InfobloxClient.baseUrl cfg ++ "/" ++ ref ∧
       (toRequest cfg (.delete ref)).query = []) ∧
      ((toRequest cfg (.callFunction ref fn d)).method = .POST ∧
       (toRequest cfg (.callFunction ref fn d)).url =
         InfobloxClient.baseUrl cfg ++ "/" ++ ref ∧
       (toRequest cfg (.callFunction ref fn d)).query = [("_function", fn)]) := by
  intro cfg ref data fn d
  exact ⟨⟨rfl, rfl, rfl⟩, ⟨rfl, rfl, rfl⟩, ⟨rfl, rfl, rfl⟩⟩

/-- C7: the client performs exactly one fetch per call whatever the
outcome; the list of issued requests is a function of the configuration
and the call arguments alone (it does not depend on the responses, so a
failure is never retried and a repeat is never served from a cache), and
each call's execution is independent of the calls around it. -/
theorem C7_stateless_client :
    ∀ (cfg : InfobloxConfig) (net : HttpRequest → HttpResponse)
      (calls : List ClientCall),
      (runCalls cfg calls net).length = calls.length ∧
      (runCalls cfg calls net).map Prod.fst = calls.map (toRequest cfg) ∧
      (∀ pre c post, runCalls cfg (pre ++ c :: post) net =
        runCalls cfg pre net ++ execCall cfg net c :: runCalls cfg post net) ∧
      (∀ c, execCall cfg net c =
        (toRequest cfg c, InfobloxClient.handleResponse (net (toRequest cfg c)))) := by
  intro cfg net calls
  refine ⟨List.length_map _ _, ?_, ?_, fun c => rfl⟩
  · induction calls with
    | nil => rfl
    | cons c rest ih =>
        simp only [runCalls, List.map_cons] at ih ⊢
        rw [ih]
        rfl
  · intro pre c post
    simp only [runCalls, List.map_append, List.map_cons]

lemma envTruthy_some {o : Option String} (h : envTruthy o = true) :
    o = some (o.getD "") := by
  cases o with
  | none => simp [envTruthy] at h
  | some s => rfl

lemma getConfig_ok_fields (env : Env) (cfg : InfobloxConfig)
    (h : getConfig env = .ok cfg) :
    env "INFOBLOX_HOST" = some cfg.host ∧
    env "INFOBLOX_USERNAME" = some cfg.username ∧
    env "INFOBLOX_PASSWORD" = some cfg.password ∧
    cfg.wapiVersion = orDefault (env "INFOBLOX_WAPI_VERSION") "2.12" ∧
    cfg.allowSelfSigned = decide (env "INFOBLOX_ALLOW_SELF_SIGNED" ≠ some "false") := by
  cases hH : envTruthy (env "INFOBLOX_HOST") <;>
    cases hU : envTruthy (env "INFOBLOX_USERNAME") <;>
      cases hP : envTruthy (env "INFOBLOX_PASSWORD") <;>
        simp only [getConfig, hH, hU, hP, Bool.not_true, Bool.not_false,
          Bool.false_or, Bool.true_or, Bool.or_true, Bool.or_false,
          if_true, if_false, Bool.or_self, ite_true, ite_false] at h
  · exact Except.noConfusion h
  · exact Except.noConfusion h
  · exact Except.noConfusion h
  · exact Except.noConfusion h
  · exact Except.noConfusion h
  · exact Except.noConfusion h
  · exact Except.noConfusion h
  · injection h with h
    subst h
    exact ⟨envTruthy_some hH, envTruthy_some hU, envTruthy_some hP, rfl, rfl⟩

/-- C4: the entry point reads INFOBLOX_HOST, INFOBLOX_USERNAME and
INFOBLOX_PASSWORD; a missing or empty value among the three prints the
error and exits with code 1, otherwise the configuration taken from the
environment (with the wapiVersion default "2.12" and the allowSelfSigned
flag) is produced; main constructs one client, registers the five tool
groups dns, network, dhcp, zone, grid in order, and attaches the stdio
transport; the registered catalog is the concatenation of the five
groups. -/
theorem C4_entry_point :
    (∀ env : Env,
      (getConfig env =
        .error ("Missing required environment variables: INFOBLOX_HOST, INFOBLOX_USERNAME, INFOBLOX_PASSWORD", 1)
        ↔ ¬(envTruthy (env "INFOBLOX_HOST") = true ∧
            envTruthy (env "INFOBLOX_USERNAME") = true ∧
            envTruthy (env "INFOBLOX_PASSWORD") = true))) ∧
    (∀ (env : Env) (cfg : InfobloxConfig), getConfig env = .ok cfg →
      env "INFOBLOX_HOST" = some cfg.host ∧
      env "INFOBLOX_USERNAME" = some cfg.username ∧
      env "INFOBLOX_PASSWORD" = some cfg.password ∧
      cfg.wapiVersion = orDefault (env "INFOBLOX_WAPI_VERSION") "2.12" ∧
      cfg.allowSelfSigned = decide (env "INFOBLOX_ALLOW_SELF_SIGNED" ≠ some "false")) ∧
    mainActions = [MainAction.mkClient, .register "dns", .register "network",
      .register "dhcp", .register "zone", .register "grid", .connect "stdio"] ∧
    tools = dnsTools ++ networkTools ++ dhcpTools ++ zoneTools ++ gridTools := by
  refine ⟨?_, ?_, rfl, rfl⟩
  · intro env
    cases hH : envTruthy (env "INFOBLOX_HOST") <;>
      cases hU : envTruthy (env "INFOBLOX_USERNAME") <;>
        cases hP : envTruthy (env "INFOBLOX_PASSWORD") <;>
          simp [getConfig, hH, hU, hP]
  · exact getConfig_ok_fields

/-- Witness for C4 at a concrete environment holding the three required
variables. -/
theorem C4_entry_point_witness :
    getConfig (fun k =>
        if k = "INFOBLOX_HOST" then some "ib.example.com"
        else if k = "INFOBLOX_USERNAME" then some "admin"
        else if k = "INFOBLOX_PASSWORD" then some "pw"
        else none) =
      .ok ⟨"ib.example.com", "admin", "pw", "2.12", true⟩ ∧
    ((fun k =>
        if k = "INFOBLOX_HOST" then some "ib.example.com"
        else if k = "INFOBLOX_USERNAME" then some "admin"
        else if k = "INFOBLOX_PASSWORD" then some "pw"
        else none) : Env) "INFOBLOX_HOST" =
      some (InfobloxConfig.host ⟨"ib.example.com", "admin", "pw", "2.12", true⟩) := by
  have h := C4_entry_point
  refine ⟨by rfl, ?_⟩
  exact (h.2.1 (fun k =>
      if k = "INFOBLOX_HOST" then some "ib.example.com"
      else if k = "INFOBLOX_USERNAME" then some "admin"
      else if k = "INFOBLOX_PASSWORD" then some "pw"
      else none)
    ⟨"ib.example.com", "admin", "pw", "2.12", true⟩ (by rfl)).1

/-- C8: the allowSelfSigned flag is true exactly when
INFOBLOX_ALLOW_SELF_SIGNED is not the exact string "false" (so also when
unset or set to "0" or "no"), and whenever it is true the client
constructor assigns NODE_TLS_REJECT_UNAUTHORIZED = "0" on the
process-wide environment, an assignment visible to every subsequent
reader of the variable, not only to Infoblox requests. -/
theorem C8_allow_self_signed :
    (∀ (env : Env) (cfg : InfobloxConfig), getConfig env = .ok cfg →
      (cfg.allowSelfSigned = true ↔
        env "INFOBLOX_ALLOW_SELF_SIGNED" ≠ some "false")) ∧
    (∀ (cfg : InfobloxConfig) (env : Env), cfg.allowSelfSigned = true →
      InfobloxClient.constructorEnv cfg env "NODE_TLS_REJECT_UNAUTHORIZED" =
        some "0") ∧
    (∀ (cfg : InfobloxConfig) (env : Env) (k : String),
      cfg.allowSelfSigned = true → k ≠ "NODE_TLS_REJECT_UNAUTHORIZED" →
      InfobloxClient.constructorEnv cfg env k = env k) ∧
    (∀ (cfg : InfobloxConfig) (env : Env), cfg.allowSelfSigned = false →
      InfobloxClient.constructorEnv cfg env = env) := by
  refine ⟨?_, ?_, ?_, ?_⟩
  · intro env cfg h
    have hconj := getConfig_ok_fields env cfg h
    rw [hconj.2.2.2.2]
    exact decide_eq_true_iff
  · intro cfg env h
    simp [InfobloxClient.constructorEnv, h, envSet]
  · intro cfg env k h hk
    simp [InfobloxClient.constructorEnv, h, envSet, hk]
  · intro cfg env h
    simp [InfobloxClient.constructorEnv, h]

/-- Witness for C8 at a concrete environment setting
INFOBLOX_ALLOW_SELF_SIGNED to "0" (a value other than "false", hence the
flag is on and the TLS variable is assigned). -/
theorem C8_allow_self_signed_witness :
    getConfig (fun k =>
        if k = "INFOBLOX_HOST" then some "ib.example.com"
        else if k = "INFOBLOX_USERNAME" then some "admin"
        else if k = "INFOBLOX_PASSWORD" then some "pw"
        else if k = "INFOBLOX_ALLOW_SELF_SIGNED" then some "0"
        else none) =
      .ok ⟨"ib.example.com", "admin", "pw", "2.12", true⟩ ∧
    (InfobloxConfig.allowSelfSigned ⟨"ib.example.com", "admin", "pw", "2.12", true⟩ = true ↔
      ((fun k =>
        if k = "INFOBLOX_HOST" then some "ib.example.com"
        else if k = "INFOBLOX_USERNAME" then some "admin"
        else if k = "INFOBLOX_PASSWORD" then some "pw"
        else if k = "INFOBLOX_ALLOW_SELF_SIGNED" then some "0"
        else none) : Env) "INFOBLOX_ALLOW_SELF_SIGNED" ≠ some "false") ∧
    InfobloxConfig.allowSelfSigned ⟨"ib.example.com", "admin", "pw", "2.12", true⟩ = true ∧
    InfobloxClient.constructorEnv ⟨"ib.example.com", "admin", "pw", "2.12", true⟩
        (fun _ => none) "NODE_TLS_REJECT_UNAUTHORIZED" = some "0" := by
  have h := C8_allow_self_signed
  refine ⟨by rfl, ?_, rfl, ?_⟩
  · exact h.1 (fun k =>
        if k = "INFOBLOX_HOST" then some "ib.example.com"
        else if k = "INFOBLOX_USERNAME" then some "admin"
        else if k = "INFOBLOX_PASSWORD" then some "pw"
        else if k = "INFOBLOX_ALLOW_SELF_SIGNED" then some "0"
        else none)
      ⟨"ib.example.com", "admin", "pw", "2.12", true⟩ (by rfl)
  · exact h.2.1 ⟨"ib.example.com", "admin", "pw", "2.12", true⟩ (fun _ => none) rfl
